import Mathlib

/-
  Shallow embedding of the invoice / inventory / cart core of the fabric-store
  backend (app/api/v1/endpoints/invoices.py, carts.py, checks.py and the
  models/schemas they use), with theorems checking the specification's claims.

  Conventions:
  * Python floats (quantities, prices) are modelled as ℚ.
  * HTTPException raises are modelled as values of `ApiError`; `ApiError.statusCode`
    gives the HTTP status each raise carries in the source.
  * Each endpoint handler is a pure function `Db → args → Db × Except ApiError α`.
    An error result pairs the *input* `Db` with the error, mirroring the handlers,
    which raise before committing and whose transaction rolls back on an exception.
  * Python truthiness tests on optional lists / strings / ints are modelled by the
    `listTruthy` / `strTruthy` / `natTruthy` helpers.
-/

set_option maxHeartbeats 1000000

/-- Roles of app/schemas/user.py's UserRole. -/
inductive UserRole
  | ADMIN
  | ACCOUNTANT
  | WAREHOUSE
deriving DecidableEq

/-- The authenticated principal (app/models/user.py, only the fields the handlers read). -/
structure User where
  id : Nat
  role : UserRole
deriving DecidableEq

/-- Invoice lifecycle states of app/schemas/invoice.py's InvoiceStatus. -/
inductive InvoiceStatus
  | DRAFT
  | WAREHOUSE_PENDING
  | ACCOUNTANT_PENDING
  | APPROVED
  | SHIPPED
  | DELIVERED
  | CANCELLED
deriving DecidableEq

/-- Payment types of app/schemas/invoice.py's PaymentType. -/
inductive PaymentType
  | CASH
  | CHECK
  | MIXED
deriving DecidableEq

/-- Ledger reasons of app/schemas/inventory.py's TransactionReason. -/
inductive TransactionReason
  | SALE_RESERVATION
  | SHIPPING
  | RESTOCK
  | ADJUSTMENT
  | RETURN
deriving DecidableEq

/-- Check states of app/schemas/check.py's CheckStatus. -/
inductive CheckStatus
  | IN_PROGRESS
  | SPENT
  | RETURNED
  | CLEARED
deriving DecidableEq

/-- Cart states of app/schemas/cart.py's CartStatus. -/
inductive CartStatus
  | PENDING
  | REVIEWED
  | APPROVED
  | REJECTED
deriving DecidableEq

/-- Product row (app/models/product.py), keeping the variant-model fields the
handlers read: the two mutually exclusive series/color shapes plus availability. -/
structure Product where
  id : Nat
  code : String
  name : String
  is_available : Bool
  is_series : Bool
  series_numbers : Option (List Int)
  series_inventory : Option (List ℚ)
  available_colors : Option (List String)
  color_inventory : Option (List ℚ)
deriving DecidableEq

/-- Modelled from the spec: one measured piece of a roll (`RollPieceDetail` is
imported by app/schemas/__init__.py but its definition is absent from the staged
app/schemas/invoice.py; §3 of the spec describes pieces with individual
measurements, with no constraint on a measurement's sign at the schema level). -/
structure RollPieceDetail where
  piece_number : Nat
  measurement : ℚ
deriving DecidableEq

/-- Modelled from the spec: a roll broken into measured pieces (`DetailedRollInfo`,
absent from the staged schema file, described in §3 / glossary of the spec). -/
structure DetailedRollInfo where
  roll_number : Nat
  pieces : List RollPieceDetail
deriving DecidableEq

/-- One invoice line item (app/models/invoice.py's InvoiceItem). -/
structure InvoiceItem where
  id : Nat
  invoice_id : Nat
  product_id : Nat
  quantity : ℚ
  unit : String
  price : ℚ
  rolls_count : Option ℚ
  pieces_per_roll : Option ℚ
  detailed_rolls : Option (List DetailedRollInfo)
deriving DecidableEq

/-- InvoiceItem.total_price, a computed property in app/models/invoice.py. -/
def InvoiceItem.total_price (it : InvoiceItem) : ℚ := it.quantity * it.price

/-- Tracking information of app/schemas/invoice.py's InvoiceTrackingUpdate. -/
structure InvoiceTrackingUpdate where
  carrier_name : String
  tracking_code : String
  shipping_date : String
  number_of_packages : Nat
deriving DecidableEq

/-- Invoice row (app/models/invoice.py), with its items list (the `items`
relationship). The invoice number is kept as a character list because the
allocation logic of create_invoice works character-wise on it. -/
structure Invoice where
  id : Nat
  invoice_number : List Char
  customer_id : Nat
  created_by : Nat
  subtotal : ℚ
  total : ℚ
  payment_type : PaymentType
  payment_breakdown : Option (List (String × ℚ))
  status : InvoiceStatus
  tracking_info : Option InvoiceTrackingUpdate
  items : List InvoiceItem
deriving DecidableEq

/-- Ledger row (app/models/inventory.py's InventoryTransaction, the fields the
handlers write; notes and timestamps are presentation-only and omitted). -/
structure InventoryTransaction where
  product_id : Nat
  change_quantity : ℚ
  reason : TransactionReason
  reference_id : Option Nat
  created_by : Nat
deriving DecidableEq

/-- Check row (app/models/check.py, the fields the handlers read or write). -/
structure Check where
  id : Nat
  check_number : String
  customer_id : Nat
  amount : ℚ
  issue_date : String
  due_date : String
  status : CheckStatus
  related_invoice_id : Option Nat
  created_by : Nat
deriving DecidableEq

/-- Customer row (app/models/customer.py, identity only: the invoice and check
handlers only test existence and compare ids). -/
structure Customer where
  id : Nat
deriving DecidableEq

/-- Cart row (app/models/cart.py, the fields submit_cart writes). -/
structure Cart where
  id : Nat
  customer_name : String
  customer_phone : String
  total_amount : ℚ
  status : CartStatus
deriving DecidableEq

/-- Cart item row (app/models/cart.py's CartItem). -/
structure CartItem where
  id : Nat
  cart_id : Nat
  product_id : Nat
  quantity : ℚ
  unit : String
  price : ℚ
  selected_series : Option (List Int)
  selected_color : Option String
deriving DecidableEq

/-- The persistence store: one list per table the modelled handlers touch. -/
structure Db where
  customers : List Customer
  products : List Product
  invoices : List Invoice
  transactions : List InventoryTransaction
  checks : List Check
  carts : List Cart
  cartItems : List CartItem
deriving DecidableEq

/-- Every distinct HTTPException raise site of the modelled handlers. -/
inductive ApiError
  | customerNotFound
  | productNotFound (product_id : Nat)
  | productUnavailable (name : String)
  | nonPositiveQuantity (name : String)
  | piecesPerRollRequired
  | checkIdRequired
  | checkNotFound (check_id : Nat)
  | checkWrongCustomer
  | checkAlreadyLinked (invoice_id : Nat)
  | invoiceNotFound
  | invalidStatusForReserve
  | invalidStatusForApproval
  | invalidStatusForShipping
  | invalidStatusForDelivery
  | alreadyCancelled
  | cancelForbidden
  | invoiceItemNotFound (item_id : Nat)
  | nonPositiveEditQuantity (item_id : Nat)
  | nonPositivePieceMeasurement (roll_number piece_number : Nat)
  | negativeEditPrice (item_id : Nat)
  | missingSeriesSelection (name : String)
  | seriesNotDefined (name : String)
  | invalidSeries (name : String)
  | insufficientSeriesStock (series : Int) (available : ℚ) (requested : Nat)
  | missingColorSelection (name : String)
  | colorsNotDefined (name : String)
  | invalidColor (color : String)
  | insufficientColorStock (color : String) (available requested : ℚ)
  | invoiceDoesNotBelongToCustomer
deriving DecidableEq

/-- The HTTP status each raise site passes to HTTPException. -/
def ApiError.statusCode : ApiError → Nat
  | .customerNotFound => 404
  | .productNotFound _ => 404
  | .checkNotFound _ => 404
  | .invoiceNotFound => 404
  | .invoiceItemNotFound _ => 404
  | .cancelForbidden => 403
  | _ => 400

/-- Truthiness of an optional list (`if not xs` in Python is taken by None and []). -/
def listTruthy {α : Type} : Option (List α) → Bool
  | some (_ :: _) => true
  | _ => false

/-- Truthiness of an optional string (None and "" are falsy). -/
def strTruthy : Option String → Bool
  | some s => s ≠ ""
  | none => false

/-- Truthiness of an optional integer id (None and 0 are falsy). -/
def natTruthy : Option Nat → Bool
  | some n => n ≠ 0
  | none => false

/-- SELECT Product WHERE id = pid (first match). -/
def findProduct (db : Db) (pid : Nat) : Option Product :=
  db.products.find? (fun p => p.id = pid)

/-- SELECT Customer WHERE id = cid. -/
def findCustomer (db : Db) (cid : Nat) : Option Customer :=
  db.customers.find? (fun c => c.id = cid)

/-- SELECT Invoice WHERE id = iid. -/
def findInvoice (db : Db) (iid : Nat) : Option Invoice :=
  db.invoices.find? (fun i => i.id = iid)

/-- SELECT Check WHERE id = cid. -/
def findCheck (db : Db) (cid : Nat) : Option Check :=
  db.checks.find? (fun c => c.id = cid)

/-- Write an invoice row back (the session holds one row per id). -/
def setInvoice (db : Db) (inv : Invoice) : Db :=
  { db with invoices := db.invoices.map (fun i => if i.id = inv.id then inv else i) }

/-- Write a check row back. -/
def setCheck (db : Db) (c : Check) : Db :=
  { db with checks := db.checks.map (fun x => if x.id = c.id then c else x) }

/-- Character of one decimal digit (0..9). -/
def digitChar (n : Nat) : Char :=
  if n = 0 then '0' else if n = 1 then '1' else if n = 2 then '2'
  else if n = 3 then '3' else if n = 4 then '4' else if n = 5 then '5'
  else if n = 6 then '6' else if n = 7 then '7' else if n = 8 then '8' else '9'

/-- Numeric value of a decimal digit character (int() on one character). -/
def digitVal (c : Char) : Nat := c.toNat - 48

/-- Decimal digits of n, most significant first (Python's str(n)); structured on
fuel so the kernel can evaluate it on concrete input. -/
def natCharsAux : Nat → Nat → List Char
  | 0, _ => []
  | fuel + 1, n =>
    if n < 10 then [digitChar n]
    else natCharsAux fuel (n / 10) ++ [digitChar (n % 10)]

/-- Decimal representation of a natural number as characters. -/
def natChars (n : Nat) : List Char := natCharsAux (n + 1) n

/-- Python's "%03d" % n: zero-padded to width three, wider numbers unpadded. -/
def fmt3 (n : Nat) : List Char :=
  if n < 1000 then [digitChar (n / 100), digitChar (n / 10 % 10), digitChar (n % 10)]
  else natChars n

/-- The year part of the number format: "INV-{persian_year}-". -/
def invoiceNumberStem (persian_year : Nat) : List Char :=
  'I' :: 'N' :: 'V' :: '-' :: natChars persian_year ++ ['-']

/-- The full number f"INV-{persian_year}-{new_number:03d}". -/
def mkInvoiceNumber (persian_year seq : Nat) : List Char :=
  invoiceNumberStem persian_year ++ fmt3 seq

/-- SQL LIKE 'stem%' membership test. -/
def startsWithChars : List Char → List Char → Bool
  | [], _ => true
  | _ :: _, [] => false
  | p :: ps, c :: cs => p = c && startsWithChars ps cs

/-- Byte-wise lexicographic strict comparison of strings, as the database's
ORDER BY on the invoice_number column compares them. -/
def lexLt : List Char → List Char → Bool
  | _, [] => false
  | [], _ :: _ => true
  | a :: as, b :: bs => if a < b then true else if b < a then false else lexLt as bs

/-- First row of ORDER BY s DESC: the lexicographically greatest element. -/
def lexMax : List (List Char) → Option (List Char)
  | [] => none
  | s :: rest => some (rest.foldl (fun acc t => if lexLt acc t then t else acc) s)

/-- Python's s.split("-") on a character list. -/
def splitDash : List Char → List (List Char)
  | [] => [[]]
  | c :: cs =>
    if c = '-' then [] :: splitDash cs
    else
      match splitDash cs with
      | [] => [[c]]
      | p :: ps => (c :: p) :: ps

/-- int(s) on a decimal-digit string. -/
def natOfChars (s : List Char) : Nat := s.foldl (fun a c => a * 10 + digitVal c) 0

/-- int(invoice_number.split("-")[-1]). -/
def trailingSeq (s : List Char) : Nat := natOfChars ((splitDash s).getLastD [])

/-- Invoice-number allocation of create_invoice: persian_year = gregorian - 621,
scan the rows LIKE "INV-{persian_year}-%" for the ORDER-BY-DESC first (that is,
lexicographically greatest) number, parse its trailing integer and add one, or
start at 1; format the result as "INV-{persian_year}-{new_number:03d}".
Returns the allocated sequence together with the formatted number. -/
def allocateInvoiceNumber (gregorian_year : Nat) (existing : List (List Char)) :
    Nat × List Char :=
  let persian_year := gregorian_year - 621
  let stem := invoiceNumberStem persian_year
  let matching := existing.filter (fun s => startsWithChars stem s)
  let new_number :=
    match lexMax matching with
    | none => 1
    | some last => trailingSeq last + 1
  (new_number, invoiceNumberStem persian_year ++ fmt3 new_number)

/-- Modelled from the spec: the invoice-item creation schema. app/schemas/__init__.py
imports roll fields (rolls_count, pieces_per_roll, detailed_rolls) that the staged
app/schemas/invoice.py does not define; §3 and §6 of the spec give the request shape
`{product_id, quantity | rolls_count+pieces_per_roll | detailed_rolls, unit, price}`
with no stated constraint on individual measurements. -/
structure InvoiceItemCreate where
  product_id : Nat
  quantity : ℚ
  unit : String
  price : ℚ
  rolls_count : Option ℚ := none
  pieces_per_roll : Option ℚ := none
  detailed_rolls : Option (List DetailedRollInfo) := none
deriving DecidableEq

/-- Modelled from the spec: the invoice creation body. The staged schema file lacks
the optional check_id field that create_invoice reads; §6 of the spec gives it
(`check_id?`). -/
structure InvoiceCreate where
  customer_id : Nat
  payment_type : PaymentType
  check_id : Option Nat := none
  payment_breakdown : Option (List (String × ℚ)) := none
  items : List InvoiceItemCreate
deriving DecidableEq

/-- Modelled from the spec: one reserve-time line-item edit (InvoiceItemReserveEdit,
absent from the staged schema file; §4.3 of the spec: optional line-item edits of
quantity/unit/price/detailed_rolls keyed by item id). -/
structure InvoiceItemReserveEdit where
  id : Nat
  quantity : Option ℚ := none
  unit : Option String := none
  price : Option ℚ := none
  detailed_rolls : Option (List DetailedRollInfo) := none
deriving DecidableEq

/-- Modelled from the spec: the optional reserve body (InvoiceReserveUpdate, absent
from the staged schema file). -/
structure InvoiceReserveUpdate where
  items : List InvoiceItemReserveEdit
deriving DecidableEq

/-- Sum of all piece measurements of the provided detailed rolls, as the creation
loop accumulates it (no per-piece validation at creation). -/
def detailedRollsTotal (rolls : List DetailedRollInfo) : ℚ :=
  (rolls.map (fun r => (r.pieces.map (fun p => p.measurement)).sum)).sum

/-- Effective-quantity resolution of create_invoice for one item: detailed_rolls
(present and non-empty) first, then rolls_count × pieces_per_roll (pieces_per_roll
required), else the raw quantity field. -/
def computeEffectiveQuantity (item : InvoiceItemCreate) : Except ApiError ℚ :=
  if listTruthy item.detailed_rolls then
    .ok (detailedRollsTotal (item.detailed_rolls.getD []))
  else
    match item.rolls_count with
    | some rc =>
      match item.pieces_per_roll with
      | none => .error .piecesPerRollRequired
      | some ppr => .ok (rc * ppr)
    | none => .ok item.quantity

/-- The per-item validation of create_invoice's first loop: the product must exist,
the effective quantity must be positive, and the product must be available. -/
def validateCreateItem (db : Db) (item : InvoiceItemCreate) : Except ApiError ℚ :=
  match findProduct db item.product_id with
  | none => .error (.productNotFound item.product_id)
  | some product =>
    match computeEffectiveQuantity item with
    | .error e => .error e
    | .ok q =>
      if q ≤ 0 then .error (.nonPositiveQuantity product.name)
      else if ¬ product.is_available then .error (.productUnavailable product.name)
      else .ok q

/-- create_invoice's first loop over the items, collecting computed_quantities. -/
def validateCreateItems (db : Db) : List InvoiceItemCreate → Except ApiError (List ℚ)
  | [] => .ok []
  | item :: rest =>
    match validateCreateItem db item with
    | .error e => .error e
    | .ok q =>
      match validateCreateItems db rest with
      | .error e => .error e
      | .ok qs => .ok (q :: qs)

/-- create_invoice's check validation for check/mixed payment: a check id is
required, the check must exist, belong to the invoice's customer, and not be
linked to an invoice already (related_invoice_id falsy). -/
def validateInvoiceCheck (db : Db) (invoice_in : InvoiceCreate) : Except ApiError Unit :=
  if ¬ natTruthy invoice_in.check_id then .error .checkIdRequired
  else
    match findCheck db (invoice_in.check_id.getD 0) with
    | none => .error (.checkNotFound (invoice_in.check_id.getD 0))
    | some check_obj =>
      if check_obj.customer_id ≠ invoice_in.customer_id then .error .checkWrongCustomer
      else if natTruthy check_obj.related_invoice_id then
        .error (.checkAlreadyLinked (check_obj.related_invoice_id.getD 0))
      else .ok ()

/-- Primary key the session assigns to a new invoice row at flush. -/
def nextInvoiceId (db : Db) : Nat := db.invoices.length + 1

/-- POST /invoices (create_invoice): validate customer, items (computing effective
quantities) and, for check/mixed payment, the supplied check; allocate the
year-scoped invoice number; create the invoice in warehouse_pending with
subtotal = total = Σ effective_quantity × price; then link the supplied check. -/
def create_invoice (db : Db) (current_user : User) (gregorian_year : Nat)
    (invoice_in : InvoiceCreate) : Db × Except ApiError Invoice :=
  match findCustomer db invoice_in.customer_id with
  | none => (db, .error .customerNotFound)
  | some _ =>
    match validateCreateItems db invoice_in.items with
    | .error e => (db, .error e)
    | .ok computed_quantities =>
      match
        (if invoice_in.payment_type = PaymentType.CHECK ∨
            invoice_in.payment_type = PaymentType.MIXED then
          validateInvoiceCheck db invoice_in
        else .ok ()) with
      | .error e => (db, .error e)
      | .ok _ =>
        let allocated :=
          allocateInvoiceNumber gregorian_year (db.invoices.map (fun i => i.invoice_number))
        let pairs := computed_quantities.zip invoice_in.items
        let subtotal := (pairs.map (fun qi => qi.1 * qi.2.price)).sum
        let iid := nextInvoiceId db
        let invoice : Invoice :=
          { id := iid
            invoice_number := allocated.2
            customer_id := invoice_in.customer_id
            created_by := current_user.id
            subtotal := subtotal
            total := subtotal
            payment_type := invoice_in.payment_type
            payment_breakdown :=
              if invoice_in.payment_type = PaymentType.MIXED ∧
                  listTruthy invoice_in.payment_breakdown then
                invoice_in.payment_breakdown
              else none
            status := InvoiceStatus.WAREHOUSE_PENDING
            tracking_info := none
            items := pairs.map (fun qi =>
              { id := 0
                invoice_id := iid
                product_id := qi.2.product_id
                quantity := qi.1
                unit := qi.2.unit
                price := qi.2.price
                rolls_count := qi.2.rolls_count
                pieces_per_roll := qi.2.pieces_per_roll
                detailed_rolls :=
                  if listTruthy qi.2.detailed_rolls then qi.2.detailed_rolls else none }) }
        let db1 := { db with invoices := db.invoices ++ [invoice] }
        let db2 :=
          if (invoice_in.payment_type = PaymentType.CHECK ∨
              invoice_in.payment_type = PaymentType.MIXED) ∧
              natTruthy invoice_in.check_id then
            match findCheck db1 (invoice_in.check_id.getD 0) with
            | some check_obj => setCheck db1 { check_obj with related_invoice_id := some iid }
            | none => db1
          else db1
        (db2, .ok invoice)

/-- Reserve-time per-piece accumulation: each measurement must be positive, the
first offending piece raises; the passing measurements sum up. -/
def checkedPiecesSum (roll_number : Nat) : List RollPieceDetail → Except ApiError ℚ
  | [] => .ok 0
  | p :: ps =>
    if p.measurement ≤ 0 then
      .error (.nonPositivePieceMeasurement roll_number p.piece_number)
    else
      match checkedPiecesSum roll_number ps with
      | .error e => .error e
      | .ok s => .ok (p.measurement + s)

/-- Reserve-time total over the provided detailed rolls, rolls in order. -/
def checkedRollsSum : List DetailedRollInfo → Except ApiError ℚ
  | [] => .ok 0
  | r :: rs =>
    match checkedPiecesSum r.roll_number r.pieces with
    | .error e => .error e
    | .ok a =>
      match checkedRollsSum rs with
      | .error e => .error e
      | .ok b => .ok (a + b)

/-- One reserve-time edit applied to one invoice item: detailed_rolls first when
provided (an empty provided list is a no-op for quantity and keeps the rest of
the edit), else an explicit positive quantity; then unit and non-negative price. -/
def applyReserveEdit (inv_item : InvoiceItem) (edit : InvoiceItemReserveEdit) :
    Except ApiError InvoiceItem :=
  match
    ((match edit.detailed_rolls with
    | some rolls =>
      if rolls.isEmpty then .ok inv_item
      else
        match checkedRollsSum rolls with
        | .error e => .error e
        | .ok total_measurement =>
          .ok { inv_item with
                  quantity := total_measurement
                  detailed_rolls := some rolls
                  rolls_count := none
                  pieces_per_roll := none }
    | none =>
      match edit.quantity with
      | some q =>
        if q ≤ 0 then .error (.nonPositiveEditQuantity edit.id)
        else .ok { inv_item with quantity := q }
      | none => .ok inv_item : Except ApiError InvoiceItem)) with
  | .error e => .error e
  | .ok it1 =>
    let it2 := match edit.unit with
      | some u => { it1 with unit := u }
      | none => it1
    match edit.price with
    | some p =>
      if p < 0 then .error (.negativeEditPrice edit.id)
      else .ok { it2 with price := p }
    | none => .ok it2

/-- The reserve edit loop: each edit looks its item up by id (404 when absent),
mutates it in place, and later edits see the earlier mutations. -/
def applyReserveEdits (items : List InvoiceItem) :
    List InvoiceItemReserveEdit → Except ApiError (List InvoiceItem)
  | [] => .ok items
  | edit :: rest =>
    match items.find? (fun i => i.id = edit.id) with
    | none => .error (.invoiceItemNotFound edit.id)
    | some inv_item =>
      match applyReserveEdit inv_item edit with
      | .error e => .error e
      | .ok it =>
        applyReserveEdits (items.map (fun j => if j.id = edit.id then it else j)) rest

/-- The availability loop of reserve_invoice_stock over the (possibly edited)
items; a missing product row cannot happen under the schema's foreign keys and
is mapped to the product-not-found error. -/
def checkItemsAvailable (db : Db) : List InvoiceItem → Except ApiError Unit
  | [] => .ok ()
  | item :: rest =>
    match findProduct db item.product_id with
    | none => .error (.productNotFound item.product_id)
    | some product =>
      if ¬ product.is_available then .error (.productUnavailable product.name)
      else checkItemsAvailable db rest

/-- POST /invoices/{id}/reserve (reserve_invoice_stock): guarded on status ∈
{warehouse_pending, accountant_pending}; optional edits applied first with
subtotal/total recomputed; one sale_reservation transaction of -quantity per
item; status → accountant_pending. -/
def reserve_invoice_stock (db : Db) (current_user : User) (invoice_id : Nat)
    (reserve_update : Option InvoiceReserveUpdate) : Db × Except ApiError Invoice :=
  match findInvoice db invoice_id with
  | none => (db, .error .invoiceNotFound)
  | some invoice =>
    if invoice.status ≠ InvoiceStatus.WAREHOUSE_PENDING ∧
        invoice.status ≠ InvoiceStatus.ACCOUNTANT_PENDING then
      (db, .error .invalidStatusForReserve)
    else
      match
        ((match reserve_update with
        | some ru =>
          if ru.items.isEmpty then .ok invoice
          else
            match applyReserveEdits invoice.items ru.items with
            | .error e => .error e
            | .ok edited =>
              let new_subtotal := (edited.map (fun i => i.quantity * i.price)).sum
              .ok { invoice with items := edited, subtotal := new_subtotal,
                                 total := new_subtotal }
        | none => .ok invoice : Except ApiError Invoice)) with
      | .error e => (db, .error e)
      | .ok invoice1 =>
        match checkItemsAvailable db invoice1.items with
        | .error e => (db, .error e)
        | .ok _ =>
          let reservations := invoice1.items.map (fun item =>
            { product_id := item.product_id
              change_quantity := -item.quantity
              reason := TransactionReason.SALE_RESERVATION
              reference_id := some invoice1.id
              created_by := current_user.id : InventoryTransaction })
          let invoice2 := { invoice1 with status := InvoiceStatus.ACCOUNTANT_PENDING }
          ({ setInvoice db invoice2 with
               transactions := db.transactions ++ reservations }, .ok invoice2)

/-- POST /invoices/{id}/approve (approve_invoice): guarded on accountant_pending. -/
def approve_invoice (db : Db) (invoice_id : Nat) : Db × Except ApiError Invoice :=
  match findInvoice db invoice_id with
  | none => (db, .error .invoiceNotFound)
  | some invoice =>
    if invoice.status ≠ InvoiceStatus.ACCOUNTANT_PENDING then
      (db, .error .invalidStatusForApproval)
    else
      let invoice1 := { invoice with status := InvoiceStatus.APPROVED }
      (setInvoice db invoice1, .ok invoice1)

/-- POST /invoices/{id}/ship (ship_invoice): guarded on approved; one shipping
transaction of 0 per item; tracking info set; status → shipped. -/
def ship_invoice (db : Db) (current_user : User) (invoice_id : Nat)
    (tracking_info : InvoiceTrackingUpdate) : Db × Except ApiError Invoice :=
  match findInvoice db invoice_id with
  | none => (db, .error .invoiceNotFound)
  | some invoice =>
    if invoice.status ≠ InvoiceStatus.APPROVED then
      (db, .error .invalidStatusForShipping)
    else
      let markers := invoice.items.map (fun item =>
        { product_id := item.product_id
          change_quantity := 0
          reason := TransactionReason.SHIPPING
          reference_id := some invoice.id
          created_by := current_user.id : InventoryTransaction })
      let invoice1 := { invoice with status := InvoiceStatus.SHIPPED,
                                     tracking_info := some tracking_info }
      ({ setInvoice db invoice1 with
           transactions := db.transactions ++ markers }, .ok invoice1)

/-- POST /invoices/{id}/deliver (deliver_invoice): guarded on shipped. -/
def deliver_invoice (db : Db) (invoice_id : Nat) : Db × Except ApiError Invoice :=
  match findInvoice db invoice_id with
  | none => (db, .error .invoiceNotFound)
  | some invoice =>
    if invoice.status ≠ InvoiceStatus.SHIPPED then
      (db, .error .invalidStatusForDelivery)
    else
      let invoice1 := { invoice with status := InvoiceStatus.DELIVERED }
      (setInvoice db invoice1, .ok invoice1)

/-- POST /invoices/{id}/cancel (cancel_invoice): admin/accountant only, refused on
an already-cancelled invoice; when the current status is in {warehouse_pending,
accountant_pending, approved, shipped, delivered} one return transaction of
+quantity is inserted per item; status → cancelled. -/
def cancel_invoice (db : Db) (current_user : User) (invoice_id : Nat) :
    Db × Except ApiError Invoice :=
  if current_user.role ≠ UserRole.ADMIN ∧ current_user.role ≠ UserRole.ACCOUNTANT then
    (db, .error .cancelForbidden)
  else
    match findInvoice db invoice_id with
    | none => (db, .error .invoiceNotFound)
    | some invoice =>
      if invoice.status = InvoiceStatus.CANCELLED then (db, .error .alreadyCancelled)
      else
        let returns :=
          if invoice.status = InvoiceStatus.WAREHOUSE_PENDING ∨
              invoice.status = InvoiceStatus.ACCOUNTANT_PENDING ∨
              invoice.status = InvoiceStatus.APPROVED ∨
              invoice.status = InvoiceStatus.SHIPPED ∨
              invoice.status = InvoiceStatus.DELIVERED then
            invoice.items.map (fun item =>
              { product_id := item.product_id
                change_quantity := item.quantity
                reason := TransactionReason.RETURN
                reference_id := some invoice.id
                created_by := current_user.id : InventoryTransaction })
          else []
        let invoice1 := { invoice with status := InvoiceStatus.CANCELLED }
        ({ setInvoice db invoice1 with
             transactions := db.transactions ++ returns }, .ok invoice1)

/-- Check creation body (app/schemas/check.py's CheckCreate). -/
structure CheckCreate where
  check_number : String
  customer_id : Nat
  amount : ℚ
  issue_date : String
  due_date : String
  status : CheckStatus := CheckStatus.IN_PROGRESS
  related_invoice_id : Option Nat := none
deriving DecidableEq

/-- Check update body (app/schemas/check.py's CheckUpdate): every field optional,
an omitted field is left unchanged (exclude_unset). -/
structure CheckUpdate where
  check_number : Option String := none
  customer_id : Option Nat := none
  amount : Option ℚ := none
  issue_date : Option String := none
  due_date : Option String := none
  status : Option CheckStatus := none
  related_invoice_id : Option Nat := none
deriving DecidableEq

/-- POST /checks (create_check): the customer must exist; a provided (truthy)
related invoice must exist and belong to the same customer. -/
def create_check (db : Db) (current_user : User) (check_in : CheckCreate) :
    Db × Except ApiError Check :=
  match findCustomer db check_in.customer_id with
  | none => (db, .error .customerNotFound)
  | some _ =>
    match
      ((if natTruthy check_in.related_invoice_id then
        match findInvoice db (check_in.related_invoice_id.getD 0) with
        | none => .error ApiError.invoiceNotFound
        | some invoice =>
          if invoice.customer_id ≠ check_in.customer_id then
            .error ApiError.invoiceDoesNotBelongToCustomer
          else .ok ()
      else .ok () : Except ApiError Unit)) with
    | .error e => (db, .error e)
    | .ok _ =>
      let check : Check :=
        { id := db.checks.length + 1
          check_number := check_in.check_number
          customer_id := check_in.customer_id
          amount := check_in.amount
          issue_date := check_in.issue_date
          due_date := check_in.due_date
          status := check_in.status
          related_invoice_id := check_in.related_invoice_id
          created_by := current_user.id }
      ({ db with checks := db.checks ++ [check] }, .ok check)

/-- The field-by-field assignment loop of update_check (exclude_unset=True). -/
def applyCheckUpdate (check : Check) (check_in : CheckUpdate) : Check :=
  { check with
      check_number := check_in.check_number.getD check.check_number
      customer_id := check_in.customer_id.getD check.customer_id
      amount := check_in.amount.getD check.amount
      issue_date := check_in.issue_date.getD check.issue_date
      due_date := check_in.due_date.getD check.due_date
      status := check_in.status.getD check.status
      related_invoice_id :=
        match check_in.related_invoice_id with
        | some v => some v
        | none => check.related_invoice_id }

/-- PUT /checks/{id} (update_check): the check must exist; a provided (truthy)
related_invoice_id must name an existing invoice of the same customer; then every
supplied field is assigned. No already-linked test is performed. -/
def update_check (db : Db) (check_id : Nat) (check_in : CheckUpdate) :
    Db × Except ApiError Check :=
  match findCheck db check_id with
  | none => (db, .error (.checkNotFound check_id))
  | some check =>
    match
      ((if natTruthy check_in.related_invoice_id then
        match findInvoice db (check_in.related_invoice_id.getD 0) with
        | none => .error ApiError.invoiceNotFound
        | some invoice =>
          if invoice.customer_id ≠ check.customer_id then
            .error ApiError.invoiceDoesNotBelongToCustomer
          else .ok ()
      else .ok () : Except ApiError Unit)) with
    | .error e => (db, .error e)
    | .ok _ =>
      let check1 := applyCheckUpdate check check_in
      (setCheck db check1, .ok check1)

/-- Cart item creation schema (app/schemas/cart.py's CartItemCreate). -/
structure CartItemCreate where
  product_id : Nat
  quantity : ℚ
  unit : String
  price : ℚ
  selected_series : Option (List Int) := none
  selected_color : Option String := none
deriving DecidableEq

/-- Public cart submission body (app/schemas/cart.py's CartCreate; only the fields
submit_cart persists are kept). -/
structure CartCreate where
  customer_name : String
  customer_phone : String
  items : List CartItemCreate
deriving DecidableEq

/-- The dict / Counter key order of Python: each value once, first occurrence first. -/
def uniqKeysAux : List Int → List Int → List Int
  | [], _ => []
  | x :: xs, seen =>
    if x ∈ seen then uniqKeysAux xs seen else x :: uniqKeysAux xs (x :: seen)

/-- Distinct values of a list in first-occurrence order. -/
def uniqKeys (l : List Int) : List Int := uniqKeysAux l []

/-- The grouped per-series occurrence counts of a selection, exactly the
series_counts dict submit_cart builds. -/
def seriesCounts (sel : List Int) : List (Int × Nat) :=
  (uniqKeys sel).map (fun s => (s, sel.count s))

/-- The inner stock loop of submit_cart's series branch: for each grouped series
number, when it is a known series whose index falls inside series_inventory, the
requested count may not exceed the stored count. -/
def checkSeriesStock (name : String) (series_numbers : List Int)
    (series_inventory : List ℚ) : List (Int × Nat) → Except ApiError Unit
  | [] => .ok ()
  | (series_num, requested_count) :: rest =>
    if series_num ∈ series_numbers then
      let series_index := series_numbers.indexOf series_num
      if series_index < series_inventory.length then
        let available_count := series_inventory.getD series_index 0
        if (requested_count : ℚ) > available_count then
          .error (.insufficientSeriesStock series_num available_count requested_count)
        else checkSeriesStock name series_numbers series_inventory rest
      else checkSeriesStock name series_numbers series_inventory rest
    else checkSeriesStock name series_numbers series_inventory rest

/-- Per-item validation of submit_cart: product existence and availability, then
the series-mode or color-mode selection, membership and stock checks. -/
def validateCartItem (db : Db) (item : CartItemCreate) : Except ApiError Unit :=
  match findProduct db item.product_id with
  | none => .error (.productNotFound item.product_id)
  | some product =>
    if ¬ product.is_available then .error (.productUnavailable product.name)
    else if product.is_series then
      if ¬ listTruthy item.selected_series then .error (.missingSeriesSelection product.name)
      else
        let sel := item.selected_series.getD []
        if ¬ listTruthy product.series_numbers then .error (.seriesNotDefined product.name)
        else
          let series_numbers := product.series_numbers.getD []
          if ¬ (sel.filter (fun s => s ∉ series_numbers)).isEmpty then
            .error (.invalidSeries product.name)
          else if listTruthy product.series_inventory then
            checkSeriesStock product.name series_numbers
              (product.series_inventory.getD []) (seriesCounts sel)
          else .ok ()
    else
      if ¬ strTruthy item.selected_color then .error (.missingColorSelection product.name)
      else
        let color := (item.selected_color.getD "")
        if ¬ listTruthy product.available_colors then .error (.colorsNotDefined product.name)
        else
          let colors := product.available_colors.getD []
          if color ∉ colors then .error (.invalidColor color)
          else if listTruthy product.color_inventory then
            let color_inventory := product.color_inventory.getD []
            let color_index := colors.indexOf color
            if color_index < color_inventory.length then
              let available_quantity := color_inventory.getD color_index 0
              if item.quantity > available_quantity then
                .error (.insufficientColorStock color available_quantity item.quantity)
              else .ok ()
            else .ok ()
          else .ok ()

/-- The leading validation loop of submit_cart over all items, first error wins. -/
def validateCartItems (db : Db) : List CartItemCreate → Except ApiError Unit
  | [] => .ok ()
  | item :: rest =>
    match validateCartItem db item with
    | .error e => .error e
    | .ok _ => validateCartItems db rest

/-- Series breakdown entry of app/schemas/cart.py's SeriesDetail. -/
structure SeriesDetail where
  series_number : Int
  quantity : ℚ
  unit : String
deriving DecidableEq

/-- Color breakdown entry of app/schemas/cart.py's ColorDetail. -/
structure ColorDetail where
  color : String
  quantity : ℚ
  unit : String
deriving DecidableEq

/-- One order_details entry (app/schemas/cart.py's OrderItemDetail). -/
structure OrderItemDetail where
  product_id : Nat
  product_name : String
  product_code : String
  is_series : Bool
  total_quantity : ℚ
  unit : String
  price_per_unit : ℚ
  total_price : ℚ
  series_details : Option (List SeriesDetail)
  color_detail : Option ColorDetail
deriving DecidableEq

/-- Ordering the series breakdown is sorted by: ascending series_number. -/
def seriesDetailLe (a b : SeriesDetail) : Prop := a.series_number ≤ b.series_number

instance : DecidableRel seriesDetailLe := fun a b => by
  unfold seriesDetailLe; infer_instance

instance : IsTotal SeriesDetail seriesDetailLe :=
  ⟨fun a b => Int.le_total a.series_number b.series_number⟩

instance : IsTrans SeriesDetail seriesDetailLe :=
  ⟨fun _ _ _ h1 h2 => Int.le_trans h1 h2⟩

/-- The series breakdown calculate_order_details builds for one series cart item
with a non-empty selection: quantity_per_series = quantity / len(selected_series),
each grouped series receives quantity_per_series × its occurrence count, and the
entries are sorted ascending by series number. -/
def seriesBreakdown (cart_item : CartItem) (sel : List Int) : List SeriesDetail :=
  let quantity_per_series := cart_item.quantity / (sel.length : ℚ)
  let series_details := (seriesCounts sel).map (fun sc =>
    { series_number := sc.1
      quantity := quantity_per_series * (sc.2 : ℚ)
      unit := cart_item.unit : SeriesDetail })
  List.insertionSort seriesDetailLe series_details

/-- calculate_order_details for one cart item with its loaded product. -/
def orderItemDetail (product : Product) (cart_item : CartItem) : OrderItemDetail :=
  if product.is_series then
    let series_details :=
      if listTruthy cart_item.selected_series then
        seriesBreakdown cart_item (cart_item.selected_series.getD [])
      else []
    { product_id := product.id
      product_name := product.name
      product_code := product.code
      is_series := true
      total_quantity := cart_item.quantity
      unit := cart_item.unit
      price_per_unit := cart_item.price
      total_price := cart_item.quantity * cart_item.price
      series_details := some series_details
      color_detail := none }
  else
    { product_id := product.id
      product_name := product.name
      product_code := product.code
      is_series := false
      total_quantity := cart_item.quantity
      unit := cart_item.unit
      price_per_unit := cart_item.price
      total_price := cart_item.quantity * cart_item.price
      series_details := none
      color_detail :=
        if strTruthy cart_item.selected_color then
          some { color := cart_item.selected_color.getD ""
                 quantity := cart_item.quantity
                 unit := cart_item.unit }
        else none }

/-- calculate_order_details over the reloaded cart items (each with its product). -/
def calculate_order_details (rows : List (Product × CartItem)) : List OrderItemDetail :=
  rows.map (fun pc => orderItemDetail pc.1 pc.2)

/-- The submit_cart response (app/schemas/cart.py's CartResponse; the Persian
message string is presentation-only and omitted). -/
structure CartResponse where
  id : Nat
  total_amount : ℚ
  order_details : List OrderItemDetail
deriving DecidableEq

/-- The CartItem row submit_cart persists for one requested item. -/
def cartItemRow (cart_id item_id : Nat) (item : CartItemCreate) : CartItem :=
  { id := item_id
    cart_id := cart_id
    product_id := item.product_id
    quantity := item.quantity
    unit := item.unit
    price := item.price
    selected_series := item.selected_series
    selected_color := item.selected_color }

/-- POST /carts/public/submit (submit_cart): validate every item first; only then
create the Cart row (total_amount = Σ quantity × price, status pending) and its
CartItem rows, reload them with their products and compute the order details.
On a validation error nothing is persisted: the returned store is the input. -/
def submit_cart (db : Db) (cart_in : CartCreate) : Db × Except ApiError CartResponse :=
  match validateCartItems db cart_in.items with
  | .error e => (db, .error e)
  | .ok _ =>
    let total_amount := (cart_in.items.map (fun item => item.quantity * item.price)).sum
    let cart_id := db.carts.length + 1
    let cart : Cart :=
      { id := cart_id
        customer_name := cart_in.customer_name
        customer_phone := cart_in.customer_phone
        total_amount := total_amount
        status := CartStatus.PENDING }
    let rows := cart_in.items.map (fun item => cartItemRow cart_id 0 item)
    let loaded := rows.filterMap (fun r =>
      (findProduct db r.product_id).map (fun p => (p, r)))
    let order_details := calculate_order_details loaded
    ({ db with carts := db.carts ++ [cart], cartItems := db.cartItems ++ rows },
      .ok { id := cart_id, total_amount := total_amount, order_details := order_details })

/-- Fixture: a color-mode product with two colors in stock. -/
def fabricProduct : Product :=
  { id := 1, code := "P001", name := "linen", is_available := true, is_series := false
    series_numbers := none, series_inventory := none
    available_colors := some ["red", "blue"], color_inventory := some [5, 10] }

/-- Fixture: the series product of the spec's stock-check example
(series_numbers = [1,2,3], series_inventory = [2,1,3]). -/
def seriesProduct : Product :=
  { id := 2, code := "P002", name := "velvet", is_available := true, is_series := true
    series_numbers := some [1, 2, 3], series_inventory := some [2, 1, 3]
    available_colors := none, color_inventory := none }

/-- Fixture: a series product whose series_inventory is absent. -/
def seriesNoInvProduct : Product :=
  { id := 3, code := "P003", name := "twill", is_available := true, is_series := true
    series_numbers := some [1, 2, 3], series_inventory := none
    available_colors := none, color_inventory := none }

/-- Fixture: a series product whose series_inventory is shorter than its
series_numbers list. -/
def seriesShortInvProduct : Product :=
  { id := 4, code := "P004", name := "satin", is_available := true, is_series := true
    series_numbers := some [1, 2, 3], series_inventory := some [2]
    available_colors := none, color_inventory := none }

/-- Fixture: a color product whose color_inventory is absent. -/
def colorNoInvProduct : Product :=
  { id := 5, code := "P005", name := "denim", is_available := true, is_series := false
    series_numbers := none, series_inventory := none
    available_colors := some ["red"], color_inventory := none }

/-- Fixture: a color product whose color_inventory is shorter than its color list. -/
def colorShortInvProduct : Product :=
  { id := 6, code := "P006", name := "wool", is_available := true, is_series := false
    series_numbers := none, series_inventory := none
    available_colors := some ["red", "blue"], color_inventory := some [1] }

/-- Fixture: invoice item of 5 units at 350000 (the spec's end-to-end scenario). -/
def item5 : InvoiceItem :=
  { id := 1, invoice_id := 1, product_id := 1, quantity := 5, unit := "m", price := 350000
    rolls_count := none, pieces_per_roll := none, detailed_rolls := none }

/-- Fixture: a warehouse_pending invoice that was never reserved (no ledger rows). -/
def wpInvoice : Invoice :=
  { id := 1, invoice_number := mkInvoiceNumber 1404 1, customer_id := 1, created_by := 1
    subtotal := 1750000, total := 1750000, payment_type := PaymentType.CASH
    payment_breakdown := none, status := InvoiceStatus.WAREHOUSE_PENDING
    tracking_info := none, items := [item5] }

/-- Fixture: a delivered invoice, failing every forward-transition guard. -/
def deliveredInvoice : Invoice :=
  { id := 9, invoice_number := mkInvoiceNumber 1404 2, customer_id := 1, created_by := 1
    subtotal := 1750000, total := 1750000, payment_type := PaymentType.CASH
    payment_breakdown := none, status := InvoiceStatus.DELIVERED
    tracking_info := none, items := [{ item5 with id := 2, invoice_id := 9 }] }

/-- Fixture: an admin principal. -/
def adminUser : User := { id := 1, role := UserRole.ADMIN }

/-- Fixture: the base store, with an empty ledger. -/
def baseDb : Db :=
  { customers := [{ id := 1 }]
    products := [fabricProduct, seriesProduct, seriesNoInvProduct, seriesShortInvProduct,
                 colorNoInvProduct, colorShortInvProduct]
    invoices := [wpInvoice, deliveredInvoice]
    transactions := []
    checks := []
    carts := []
    cartItems := [] }

/-- Fixture: a creation item whose detailed rolls hold a negative piece measurement
summing to a positive total. -/
def negPieceItem : InvoiceItemCreate :=
  { product_id := 1, quantity := 0, unit := "m", price := 10
    detailed_rolls := some [{ roll_number := 1
                              pieces := [{ piece_number := 1, measurement := -1 },
                                         { piece_number := 2, measurement := 5 }] }] }

/-- Fixture: invoice of customer 1 a check is initially linked to. -/
def invA : Invoice :=
  { id := 1, invoice_number := mkInvoiceNumber 1404 5, customer_id := 1, created_by := 1
    subtotal := 100, total := 100, payment_type := PaymentType.CHECK
    payment_breakdown := none, status := InvoiceStatus.DELIVERED
    tracking_info := none, items := [] }

/-- Fixture: a second invoice of the same customer. -/
def invB : Invoice := { invA with id := 2, invoice_number := mkInvoiceNumber 1404 6 }

/-- Fixture: a check already linked to invoice 1. -/
def linkedCheck : Check :=
  { id := 5, check_number := "12345678", customer_id := 1, amount := 2800000
    issue_date := "1401-06-10", due_date := "1401-09-10", status := CheckStatus.IN_PROGRESS
    related_invoice_id := some 1, created_by := 1 }

/-- Fixture: a store holding two invoices of one customer and the linked check. -/
def checkDb : Db :=
  { customers := [{ id := 1 }], products := [], invoices := [invA, invB]
    transactions := [], checks := [linkedCheck], carts := [], cartItems := [] }

/-- Fixture: a check update that re-targets related_invoice_id to invoice 2. -/
def relinkUpdate : CheckUpdate := { related_invoice_id := some 2 }

/-- Fixture: a plain cash creation body with one five-unit item. -/
def invIn1 : InvoiceCreate :=
  { customer_id := 1, payment_type := PaymentType.CASH
    items := [{ product_id := 1, quantity := 5, unit := "m", price := 350000 }] }

/-- Fixture: the invoice create_invoice builds for invIn1 on baseDb in 2025. -/
def createdInvoice : Invoice :=
  { id := 3, invoice_number := mkInvoiceNumber 1404 3, customer_id := 1, created_by := 1
    subtotal := 1750000, total := 1750000, payment_type := PaymentType.CASH
    payment_breakdown := none, status := InvoiceStatus.WAREHOUSE_PENDING
    tracking_info := none
    items := [{ id := 0, invoice_id := 3, product_id := 1, quantity := 5, unit := "m"
                price := 350000, rolls_count := none, pieces_per_roll := none
                detailed_rolls := none }] }

/-- Fixture: a reserve body editing item 1's quantity to 7. -/
def editQty7 : InvoiceReserveUpdate := { items := [{ id := 1, quantity := some 7 }] }

/-- Fixture: the invoice reserve_invoice_stock returns for editQty7 on baseDb. -/
def reservedInvoice : Invoice :=
  { id := 1, invoice_number := mkInvoiceNumber 1404 1, customer_id := 1, created_by := 1
    subtotal := 2450000, total := 2450000, payment_type := PaymentType.CASH
    payment_breakdown := none, status := InvoiceStatus.ACCOUNTANT_PENDING
    tracking_info := none, items := [{ item5 with quantity := 7 }] }

/-- Fixture: tracking data for ship_invoice. -/
def trackingFixture : InvoiceTrackingUpdate :=
  { carrier_name := "post", tracking_code := "EXP1", shipping_date := "1404-06-15"
    number_of_packages := 1 }

/-- Fixture: the spec example selection [1,1,2] against the series product. -/
def item112 : CartItemCreate :=
  { product_id := 2, quantity := 3, unit := "m", price := 10
    selected_series := some [1, 1, 2] }

/-- Fixture: the spec example selection [1,1,1] against the series product. -/
def item111 : CartItemCreate :=
  { product_id := 2, quantity := 3, unit := "m", price := 10
    selected_series := some [1, 1, 1] }

/-- Fixture: the spec's breakdown example, 50 units across series [1,2,3,4,5]. -/
def cartItem50 : CartItem :=
  { id := 1, cart_id := 1, product_id := 2, quantity := 50, unit := "m", price := 350000
    selected_series := some [1, 2, 3, 4, 5], selected_color := none }

/-- Fixture: a minimal store with one customer, one product and no invoices. -/
def minDb : Db :=
  { customers := [{ id := 1 }], products := [fabricProduct], invoices := []
    transactions := [], checks := [], carts := [], cartItems := [] }

/-- Fixture: the invoice create_invoice builds for invIn1 on minDb in 2025. -/
def minCreatedInvoice : Invoice :=
  { id := 1, invoice_number := mkInvoiceNumber 1404 1, customer_id := 1, created_by := 1
    subtotal := 1750000, total := 1750000, payment_type := PaymentType.CASH
    payment_breakdown := none, status := InvoiceStatus.WAREHOUSE_PENDING
    tracking_info := none
    items := [{ id := 0, invoice_id := 1, product_id := 1, quantity := 5, unit := "m"
                price := 350000, rolls_count := none, pieces_per_roll := none
                detailed_rolls := none }] }

deriving instance DecidableEq for Except

/-- Fixture: one detailed roll with two positive pieces (2 and 3). -/
def posRolls : List DetailedRollInfo :=
  [{ roll_number := 1
     pieces := [{ piece_number := 1, measurement := 2 },
                { piece_number := 2, measurement := 3 }] }]

/-- Fixture: a reserve-time edit supplying posRolls for item 1. -/
def posRollsEdit : InvoiceItemReserveEdit := { id := 1, detailed_rolls := some posRolls }

/-- Fixture: item5 after the posRolls edit. -/
def item5Rolled : InvoiceItem :=
  { item5 with quantity := 5, detailed_rolls := some posRolls
               rolls_count := none, pieces_per_roll := none }

/-- Truthiness of a provided non-empty list. -/
theorem listTruthy_some_of_ne {α : Type} {l : List α} (h : l ≠ []) :
    listTruthy (some l) = true := by
  cases l with
  | nil => exact absurd rfl h
  | cons a as => rfl

/-- C1: the spec says cancel records `return` ledger rows exactly when the invoice
was ever reserved, and the cancel code's own comment reads "If stock was reserved,
return it"; but the status list it tests includes warehouse_pending, a state in
which no reservation has ever happened. Cancelling the never-reserved
warehouse_pending fixture (its ledger is empty, so no sale_reservation exists)
nevertheless inserts a +quantity return transaction per item. -/
theorem cancel_never_reserved_inserts_return :
    wpInvoice.status = InvoiceStatus.WAREHOUSE_PENDING ∧
    baseDb.transactions = [] ∧
    (cancel_invoice baseDb adminUser 1).1.transactions =
      [{ product_id := 1, change_quantity := 5, reason := TransactionReason.RETURN,
         reference_id := some 1, created_by := 1 }] ∧
    (cancel_invoice baseDb adminUser 1).2 =
      .ok { wpInvoice with status := InvoiceStatus.CANCELLED } :=
  ⟨rfl, rfl, by decide, by decide⟩

/-- C2: every guarded invoice transition, invoked on an invoice whose status fails
the guard, returns the 400 wrong-status ValidationError with the store (hence the
invoice's status and all other invoice state) unchanged: approve requires
accountant_pending, ship requires approved, deliver requires shipped, reserve
requires warehouse_pending or accountant_pending. -/
theorem guarded_transitions_reject (db : Db) (u : User) (iid : Nat) (inv : Invoice)
    (t : InvoiceTrackingUpdate) (ru : Option InvoiceReserveUpdate)
    (hfind : findInvoice db iid = some inv) :
    (inv.status ≠ InvoiceStatus.ACCOUNTANT_PENDING →
      approve_invoice db iid = (db, .error .invalidStatusForApproval) ∧
      ApiError.invalidStatusForApproval.statusCode = 400) ∧
    (inv.status ≠ InvoiceStatus.APPROVED →
      ship_invoice db u iid t = (db, .error .invalidStatusForShipping) ∧
      ApiError.invalidStatusForShipping.statusCode = 400) ∧
    (inv.status ≠ InvoiceStatus.SHIPPED →
      deliver_invoice db iid = (db, .error .invalidStatusForDelivery) ∧
      ApiError.invalidStatusForDelivery.statusCode = 400) ∧
    (inv.status ≠ InvoiceStatus.WAREHOUSE_PENDING →
      inv.status ≠ InvoiceStatus.ACCOUNTANT_PENDING →
      reserve_invoice_stock db u iid ru = (db, .error .invalidStatusForReserve) ∧
      ApiError.invalidStatusForReserve.statusCode = 400) := by
  refine ⟨fun h => ?_, fun h => ?_, fun h => ?_, fun h1 h2 => ?_⟩
  · simp [approve_invoice, hfind, h, ApiError.statusCode]
  · simp [ship_invoice, hfind, h, ApiError.statusCode]
  · simp [deliver_invoice, hfind, h, ApiError.statusCode]
  · simp [reserve_invoice_stock, hfind, h1, h2, ApiError.statusCode]

/-- Witness for C2 at the delivered fixture invoice, which fails all four guards. -/
theorem guarded_transitions_reject_witness :
    (approve_invoice baseDb 9 = (baseDb, .error .invalidStatusForApproval) ∧
      ApiError.invalidStatusForApproval.statusCode = 400) ∧
    (ship_invoice baseDb adminUser 9 trackingFixture =
        (baseDb, .error .invalidStatusForShipping) ∧
      ApiError.invalidStatusForShipping.statusCode = 400) ∧
    (deliver_invoice baseDb 9 = (baseDb, .error .invalidStatusForDelivery) ∧
      ApiError.invalidStatusForDelivery.statusCode = 400) ∧
    (reserve_invoice_stock baseDb adminUser 9 none =
        (baseDb, .error .invalidStatusForReserve) ∧
      ApiError.invalidStatusForReserve.statusCode = 400) :=
  have h := guarded_transitions_reject baseDb adminUser 9 deliveredInvoice
    trackingFixture none (by decide)
  ⟨h.1 (by decide), h.2.1 (by decide), h.2.2.1 (by decide), h.2.2.2 (by decide) (by decide)⟩

/-- C9: a public cart item on a color-mode product without selected_color is
rejected with the 400 missing-color-selection ValidationError naming the product,
and every validation failure of submit_cart leaves the store untouched (no Cart or
CartItem row), because all item validation runs before any row is created. -/
theorem missing_color_rejected_unpersisted :
    (∀ (db : Db) (item : CartItemCreate) (p : Product),
      findProduct db item.product_id = some p →
      p.is_available = true → p.is_series = false → item.selected_color = none →
      validateCartItem db item = .error (.missingColorSelection p.name) ∧
      (ApiError.missingColorSelection p.name).statusCode = 400) ∧
    (∀ (db : Db) (cart_in : CartCreate) (e : ApiError),
      validateCartItems db cart_in.items = .error e →
      submit_cart db cart_in = (db, .error e)) := by
  constructor
  · intro db item p hfind havail hseries hcolor
    simp [validateCartItem, hfind, havail, hseries, hcolor, strTruthy, ApiError.statusCode]
  · intro db cart_in e hval
    simp [submit_cart, hval]

/-- Witness for C9: a red-only product ordered without a color, on a store whose
cart tables stay empty. -/
theorem missing_color_rejected_unpersisted_witness :
    (validateCartItem baseDb { product_id := 5, quantity := 2, unit := "m", price := 10 } =
      .error (.missingColorSelection "denim") ∧
      (ApiError.missingColorSelection "denim").statusCode = 400) ∧
    submit_cart baseDb
      { customer_name := "a", customer_phone := "0912",
        items := [{ product_id := 5, quantity := 2, unit := "m", price := 10 }] } =
      (baseDb, .error (.missingColorSelection "denim")) :=
  ⟨missing_color_rejected_unpersisted.1 baseDb
      { product_id := 5, quantity := 2, unit := "m", price := 10 } colorNoInvProduct
      (by decide) (by decide) (by decide) (by decide),
    missing_color_rejected_unpersisted.2 baseDb
      { customer_name := "a", customer_phone := "0912",
        items := [{ product_id := 5, quantity := 2, unit := "m", price := 10 }] }
      (.missingColorSelection "denim") (by decide)⟩

/-- C4 counterexample: a check linked to invoice 1 is re-linked to invoice 2 of the
same customer by update_check, which performs no already-linked test; the update
succeeds and the relink is persisted, so linkage exclusivity does not hold on the
check-update path. -/
theorem update_check_relinks_linked_check :
    linkedCheck.related_invoice_id = some 1 ∧
    (update_check checkDb 5 relinkUpdate).2 =
      .ok { linkedCheck with related_invoice_id := some 2 } ∧
    (update_check checkDb 5 relinkUpdate).1.checks =
      [{ linkedCheck with related_invoice_id := some 2 }] :=
  ⟨rfl, by decide, by decide⟩

/-- C4 as amended: supplying an already-linked check's id to create_invoice fails
with the 400 already-linked ValidationError, leaving the store (hence the check's
link) unchanged; check creation validates only existence and customer of a target
invoice; but update_check enforces no exclusivity: updating a linked check with a
different invoice of the same customer succeeds and re-links it. -/
theorem check_link_exclusivity_create_only :
    (∀ (db : Db) (u : User) (gy : Nat) (invoice_in : InvoiceCreate)
        (cu : Customer) (qs : List ℚ) (cid : Nat) (c : Check) (j : Nat),
      (invoice_in.payment_type = PaymentType.CHECK ∨
        invoice_in.payment_type = PaymentType.MIXED) →
      findCustomer db invoice_in.customer_id = some cu →
      validateCreateItems db invoice_in.items = .ok qs →
      invoice_in.check_id = some cid → cid ≠ 0 →
      findCheck db cid = some c →
      c.customer_id = invoice_in.customer_id →
      c.related_invoice_id = some j → j ≠ 0 →
      create_invoice db u gy invoice_in = (db, .error (.checkAlreadyLinked j)) ∧
      (ApiError.checkAlreadyLinked j).statusCode = 400) ∧
    (∀ (db : Db) (check_id : Nat) (c : Check) (check_in : CheckUpdate)
        (v : Nat) (inv2 : Invoice),
      findCheck db check_id = some c →
      c.related_invoice_id.isSome →
      check_in.related_invoice_id = some v → v ≠ 0 →
      findInvoice db v = some inv2 →
      inv2.customer_id = c.customer_id →
      update_check db check_id check_in =
        (setCheck db (applyCheckUpdate c check_in), .ok (applyCheckUpdate c check_in)) ∧
      (applyCheckUpdate c check_in).related_invoice_id = some v) := by
  constructor
  · intro db u gy invoice_in cu qs cid c j hpay hcu hitems hcid hcid0 hc hccust hlink hj
    have hvc : validateInvoiceCheck db invoice_in = .error (.checkAlreadyLinked j) := by
      simp [validateInvoiceCheck, hcid, natTruthy, hcid0, hc, hccust, hlink, hj]
    constructor
    · simp [create_invoice, hcu, hitems, hpay, hvc]
    · rfl
  · intro db check_id c check_in v inv2 hc hlinked hv hv0 hinv2 hcust
    constructor
    · simp [update_check, hc, hv, natTruthy, hv0, hinv2, hcust]
    · simp [applyCheckUpdate, hv]

/-- Witness for C4's amended statement: the linked fixture check blocks invoice
creation and is nevertheless re-linked by update_check. -/
theorem check_link_exclusivity_create_only_witness :
    (create_invoice checkDb adminUser 2025
        { customer_id := 1, payment_type := PaymentType.CHECK, check_id := some 5,
          items := [] } =
      (checkDb, .error (.checkAlreadyLinked 1)) ∧
      (ApiError.checkAlreadyLinked 1).statusCode = 400) ∧
    (update_check checkDb 5 relinkUpdate =
      (setCheck checkDb (applyCheckUpdate linkedCheck relinkUpdate),
        .ok (applyCheckUpdate linkedCheck relinkUpdate)) ∧
      (applyCheckUpdate linkedCheck relinkUpdate).related_invoice_id = some 2) :=
  ⟨check_link_exclusivity_create_only.1 checkDb adminUser 2025
      { customer_id := 1, payment_type := PaymentType.CHECK, check_id := some 5, items := [] }
      { id := 1 } [] 5 linkedCheck 1 (Or.inl rfl) (by decide) (by decide) rfl (by decide)
      (by decide) (by decide) rfl (by decide),
    check_link_exclusivity_create_only.2 checkDb 5 linkedCheck relinkUpdate 2 invB
      (by decide) (by decide) rfl (by decide) (by decide) (by decide)⟩

/-- The inner stock loop accepts exactly when every grouped count whose series is
known and whose index is covered by the inventory list stays within it. -/
theorem checkSeriesStock_ok_iff (name : String) (nums : List Int) (inv : List ℚ)
    (pairs : List (Int × Nat)) :
    checkSeriesStock name nums inv pairs = .ok () ↔
      ∀ sc ∈ pairs, sc.1 ∈ nums → nums.indexOf sc.1 < inv.length →
        ((sc.2 : ℚ) ≤ inv.getD (nums.indexOf sc.1) 0) := by
  induction pairs with
  | nil => simp [checkSeriesStock]
  | cons sc rest ih =>
    by_cases h1 : sc.1 ∈ nums
    · by_cases h2 : nums.indexOf sc.1 < inv.length
      · by_cases h3 : ((sc.2 : ℚ) > inv.getD (nums.indexOf sc.1) 0)
        · simp only [checkSeriesStock, if_pos h1, if_pos h2, if_pos h3, List.mem_cons]
          constructor
          · intro h; cases h
          · intro h
            exact absurd (h sc (Or.inl rfl) h1 h2) (not_le.mpr h3)
        · simp only [checkSeriesStock, if_pos h1, if_pos h2, if_neg h3, ih, List.mem_cons]
          constructor
          · intro h sc' hsc' hm hi
            rcases hsc' with rfl | hsc'
            · exact not_lt.mp h3
            · exact h sc' hsc' hm hi
          · intro h sc' hsc' hm hi
            exact h sc' (Or.inr hsc') hm hi
      · simp only [checkSeriesStock, if_pos h1, if_neg h2, ih, List.mem_cons]
        constructor
        · intro h sc' hsc' hm hi
          rcases hsc' with rfl | hsc'
          · exact absurd hi h2
          · exact h sc' hsc' hm hi
        · intro h sc' hsc' hm hi
          exact h sc' (Or.inr hsc') hm hi
    · simp only [checkSeriesStock, if_neg h1, ih, List.mem_cons]
      constructor
      · intro h sc' hsc' hm hi
        rcases hsc' with rfl | hsc'
        · exact absurd hm h1
        · exact h sc' hsc' hm hi
      · intro h sc' hsc' hm hi
        exact h sc' (Or.inr hsc') hm hi

/-- Membership of the seen-accumulator grouping. -/
theorem mem_uniqKeysAux (x : Int) :
    ∀ (l seen : List Int), x ∈ uniqKeysAux l seen ↔ x ∈ l ∧ x ∉ seen := by
  intro l
  induction l with
  | nil => simp [uniqKeysAux]
  | cons y ys ih =>
    intro seen
    by_cases hy : y ∈ seen
    · simp only [uniqKeysAux, if_pos hy, ih, List.mem_cons]
      constructor
      · rintro ⟨h1, h2⟩; exact ⟨Or.inr h1, h2⟩
      · rintro ⟨h1 | h1, h2⟩
        · subst h1; exact absurd hy h2
        · exact ⟨h1, h2⟩
    · simp only [uniqKeysAux, if_neg hy, List.mem_cons, ih]
      constructor
      · rintro (rfl | ⟨h1, h2⟩)
        · exact ⟨Or.inl rfl, hy⟩
        · refine ⟨Or.inr h1, fun hc => h2 (Or.inr hc)⟩
      · rintro ⟨h1 | h1, h2⟩
        · exact Or.inl h1
        · by_cases hxy : x = y
          · exact Or.inl hxy
          · exact Or.inr ⟨h1, by simp [List.mem_cons, hxy, h2]⟩

/-- The grouped keys are exactly the selected series numbers. -/
theorem mem_uniqKeys (x : Int) (l : List Int) : x ∈ uniqKeys l ↔ x ∈ l := by
  simp [uniqKeys, mem_uniqKeysAux]

/-- A pair belongs to the grouped counts exactly when its key was selected and it
carries that key's occurrence count. -/
theorem mem_seriesCounts (sel : List Int) (sc : Int × Nat) :
    sc ∈ seriesCounts sel ↔ sc.1 ∈ sel ∧ sc.2 = sel.count sc.1 := by
  rcases sc with ⟨s, c⟩
  simp only [seriesCounts, List.mem_map, mem_uniqKeys, Prod.mk.injEq]
  constructor
  · rintro ⟨a, ha, rfl, rfl⟩; exact ⟨ha, rfl⟩
  · rintro ⟨h1, h2⟩; exact ⟨s, h1, rfl, h2.symm⟩

/-- C5: on a series product whose inventory list covers every selected index, a
public cart item passes validation exactly when, for each distinct selected series
number, its occurrence count stays within the inventory at that series number's
index; in particular the spec's example product (series [1,2,3], inventory
[2,1,3]) accepts the selection [1,1,2] and rejects [1,1,1] with the
insufficient-stock ValidationError for series 1 (available 2, requested 3). -/
theorem series_stock_grouped_check (db : Db) (item : CartItemCreate) (p : Product)
    (sel nums : List Int) (sinv : List ℚ)
    (hfind : findProduct db item.product_id = some p)
    (havail : p.is_available = true)
    (hseries : p.is_series = true)
    (hsel : item.selected_series = some sel) (hne : sel ≠ [])
    (hnums : p.series_numbers = some nums) (hnumsne : nums ≠ [])
    (hmem : ∀ s ∈ sel, s ∈ nums)
    (hsinv : p.series_inventory = some sinv) (hsinvne : sinv ≠ []) :
    (validateCartItem db item = .ok () ↔
      ∀ s ∈ sel, nums.indexOf s < sinv.length →
        ((sel.count s : ℚ) ≤ sinv.getD (nums.indexOf s) 0)) ∧
    validateCartItem baseDb item112 = .ok () ∧
    validateCartItem baseDb item111 = .error (.insufficientSeriesStock 1 2 3) := by
  refine ⟨?_, by decide, by decide⟩
  have hfilter : sel.filter (fun s => decide (s ∉ nums)) = [] :=
    List.filter_eq_nil_iff.mpr (fun a ha => by simp [hmem a ha])
  rw [validateCartItem]
  simp only [hfind, havail, hseries, hsel, hnums, hsinv,
    listTruthy_some_of_ne hne, listTruthy_some_of_ne hnumsne, listTruthy_some_of_ne hsinvne,
    Option.getD_some, hfilter]
  simp only [Bool.not_true, Bool.false_eq_true, if_false, if_true, List.isEmpty_nil,
    not_true, ite_true, ite_false]
  rw [checkSeriesStock_ok_iff]
  constructor
  · intro h s hs hidx
    have := h (s, sel.count s) (by rw [mem_seriesCounts]; exact ⟨hs, rfl⟩) (hmem s hs) hidx
    simpa using this
  · intro h sc hsc hscmem hidx
    rcases (mem_seriesCounts sel sc).mp hsc with ⟨h1, h2⟩
    rw [h2]
    exact h sc.1 h1 hidx

/-- Witness for C5 at the spec's example product and the [1,1,2] selection. -/
theorem series_stock_grouped_check_witness :
    ((validateCartItem baseDb item112 = .ok () ↔
      ∀ s ∈ ([1, 1, 2] : List Int), ([1, 2, 3] : List Int).indexOf s < ([2, 1, 3] : List ℚ).length →
        ((([1, 1, 2] : List Int).count s : ℚ) ≤
          ([2, 1, 3] : List ℚ).getD (([1, 2, 3] : List Int).indexOf s) 0)) ∧
    validateCartItem baseDb item112 = .ok () ∧
    validateCartItem baseDb item111 = .error (.insufficientSeriesStock 1 2 3)) :=
  series_stock_grouped_check baseDb item112 seriesProduct [1, 1, 2] [1, 2, 3] [2, 1, 3]
    (by decide) (by decide) (by decide) rfl (by decide) rfl (by decide)
    (by decide) rfl (by decide)

/-- C10: the stock-sufficiency check of submit_cart is skipped when the product's
inventory list is absent/empty or too short, so a member selection passes on
membership alone: a series item passes for any occurrence counts when
series_inventory is falsy or when every matched index lies past its end, and a
color item passes for any quantity when color_inventory is falsy or the matched
color index lies past its end. -/
theorem inventory_gaps_skip_stock_check :
    (∀ (db : Db) (item : CartItemCreate) (p : Product) (sel nums : List Int),
      findProduct db item.product_id = some p →
      p.is_available = true → p.is_series = true →
      item.selected_series = some sel → sel ≠ [] →
      p.series_numbers = some nums → nums ≠ [] →
      (∀ s ∈ sel, s ∈ nums) →
      listTruthy p.series_inventory = false →
      validateCartItem db item = .ok ()) ∧
    (∀ (db : Db) (item : CartItemCreate) (p : Product) (sel nums : List Int) (sinv : List ℚ),
      findProduct db item.product_id = some p →
      p.is_available = true → p.is_series = true →
      item.selected_series = some sel → sel ≠ [] →
      p.series_numbers = some nums → nums ≠ [] →
      (∀ s ∈ sel, s ∈ nums) →
      p.series_inventory = some sinv → sinv ≠ [] →
      (∀ s ∈ sel, ¬ nums.indexOf s < sinv.length) →
      validateCartItem db item = .ok ()) ∧
    (∀ (db : Db) (item : CartItemCreate) (p : Product) (color : String) (colors : List String),
      findProduct db item.product_id = some p →
      p.is_available = true → p.is_series = false →
      item.selected_color = some color → color ≠ "" →
      p.available_colors = some colors → colors ≠ [] →
      color ∈ colors →
      listTruthy p.color_inventory = false →
      validateCartItem db item = .ok ()) ∧
    (∀ (db : Db) (item : CartItemCreate) (p : Product) (color : String)
        (colors : List String) (cinv : List ℚ),
      findProduct db item.product_id = some p →
      p.is_available = true → p.is_series = false →
      item.selected_color = some color → color ≠ "" →
      p.available_colors = some colors → colors ≠ [] →
      color ∈ colors →
      p.color_inventory = some cinv → cinv ≠ [] →
      ¬ colors.indexOf color < cinv.length →
      validateCartItem db item = .ok ()) := by
  refine ⟨?_, ?_, ?_, ?_⟩
  · intro db item p sel nums hfind havail hseries hsel hne hnums hnumsne hmem hninv
    have hfilter : sel.filter (fun s => decide (s ∉ nums)) = [] :=
      List.filter_eq_nil_iff.mpr (fun a ha => by simp [hmem a ha])
    rw [validateCartItem]
    simp [hfind, havail, hseries, hsel, hnums, hninv,
      listTruthy_some_of_ne hne, listTruthy_some_of_ne hnumsne, hfilter]
    exact hmem
  · intro db item p sel nums sinv hfind havail hseries hsel hne hnums hnumsne hmem
      hsinv hsinvne hshort
    have hfilter : sel.filter (fun s => decide (s ∉ nums)) = [] :=
      List.filter_eq_nil_iff.mpr (fun a ha => by simp [hmem a ha])
    rw [validateCartItem]
    simp only [hfind, havail, hseries, hsel, hnums, hsinv,
      listTruthy_some_of_ne hne, listTruthy_some_of_ne hnumsne, listTruthy_some_of_ne hsinvne,
      Option.getD_some, hfilter]
    simp only [Bool.not_true, Bool.false_eq_true, if_false, if_true, List.isEmpty_nil,
      not_true, ite_true, ite_false]
    rw [checkSeriesStock_ok_iff]
    intro sc hsc hscmem hidx
    rcases (mem_seriesCounts sel sc).mp hsc with ⟨h1, _⟩
    exact absurd hidx (hshort sc.1 h1)
  · intro db item p color colors hfind havail hseries hcolor hcne hcolors hcolorsne
      hmemc hninv
    have hstr : strTruthy (some color) = true := by simp [strTruthy, hcne]
    rw [validateCartItem]
    simp [hfind, havail, hseries, hcolor, hcolors, hstr, hninv,
      listTruthy_some_of_ne hcolorsne, hmemc]
  · intro db item p color colors cinv hfind havail hseries hcolor hcne hcolors
      hcolorsne hmemc hcinv hcinvne hshort
    have hstr : strTruthy (some color) = true := by simp [strTruthy, hcne]
    rw [validateCartItem]
    simp [hfind, havail, hseries, hcolor, hcolors, hstr, hcinv, hshort,
      listTruthy_some_of_ne hcolorsne, listTruthy_some_of_ne hcinvne, hmemc]

/-- Witness for C10 on the four gap fixtures: huge requests pass validation. -/
theorem inventory_gaps_skip_stock_check_witness :
    validateCartItem baseDb
      { product_id := 3, quantity := 1000, unit := "m", price := 10,
        selected_series := some [1, 1, 1, 1, 1, 1] } = .ok () ∧
    validateCartItem baseDb
      { product_id := 4, quantity := 1000, unit := "m", price := 10,
        selected_series := some [3, 3, 3, 3, 3] } = .ok () ∧
    validateCartItem baseDb
      { product_id := 5, quantity := 1000, unit := "m", price := 10,
        selected_color := some "red" } = .ok () ∧
    validateCartItem baseDb
      { product_id := 6, quantity := 1000, unit := "m", price := 10,
        selected_color := some "blue" } = .ok () :=
  ⟨inventory_gaps_skip_stock_check.1 baseDb _ seriesNoInvProduct [1, 1, 1, 1, 1, 1] [1, 2, 3]
      (by decide) (by decide) (by decide) rfl (by decide) rfl (by decide) (by decide) (by decide),
    inventory_gaps_skip_stock_check.2.1 baseDb _ seriesShortInvProduct [3, 3, 3, 3, 3]
      [1, 2, 3] [2] (by decide) (by decide) (by decide) rfl (by decide) rfl (by decide)
      (by decide) rfl (by decide) (by decide),
    inventory_gaps_skip_stock_check.2.2.1 baseDb _ colorNoInvProduct "red" ["red"]
      (by decide) (by decide) (by decide) rfl (by decide) rfl (by decide) (by decide) (by decide),
    inventory_gaps_skip_stock_check.2.2.2 baseDb _ colorShortInvProduct "blue" ["red", "blue"]
      [1] (by decide) (by decide) (by decide) rfl (by decide) rfl (by decide) (by decide)
      rfl (by decide) (by decide)⟩

/-- C8: for a series cart item with a non-empty selection, the breakdown is sorted
ascending by series number and assigns each distinct selected series the quantity
(total_quantity / len(selected_series)) × its occurrence count, with the item's
unit; and calculate_order_details uses exactly this breakdown for series products
with a truthy selection. -/
theorem series_breakdown_sorted_weighted (cart_item : CartItem) (sel : List Int)
    (_hne : sel ≠ []) :
    List.Sorted seriesDetailLe (seriesBreakdown cart_item sel) ∧
    (∀ (s : Int) (q : ℚ) (u : String),
      ({ series_number := s, quantity := q, unit := u } : SeriesDetail)
          ∈ seriesBreakdown cart_item sel ↔
        (s ∈ sel ∧ q = cart_item.quantity / (sel.length : ℚ) * (sel.count s : ℚ) ∧
          u = cart_item.unit)) ∧
    (∀ product : Product, product.is_series = true →
      listTruthy cart_item.selected_series = true →
      (orderItemDetail product cart_item).series_details =
        some (seriesBreakdown cart_item (cart_item.selected_series.getD []))) := by
  refine ⟨?_, ?_, ?_⟩
  · exact List.sorted_insertionSort seriesDetailLe _
  · intro s q u
    rw [seriesBreakdown]
    simp only [List.mem_insertionSort, List.mem_map, mem_seriesCounts,
      SeriesDetail.mk.injEq]
    constructor
    · rintro ⟨⟨s', c⟩, ⟨h1, h2⟩, rfl, rfl, rfl⟩
      simp only at h2
      exact ⟨h1, by rw [h2], rfl⟩
    · rintro ⟨h1, rfl, rfl⟩
      exact ⟨(s, sel.count s), ⟨h1, rfl⟩, rfl, rfl, rfl⟩
  · intro product hps hts
    simp [orderItemDetail, hps, hts]

/-- Witness for C8: 50 units over selection [1,2,3,4,5] yield 10 per series, in
ascending order, and the instantiated sortedness/weighting conclusion holds. -/
theorem series_breakdown_sorted_weighted_witness :
    seriesBreakdown cartItem50 [1, 2, 3, 4, 5] =
      [{ series_number := 1, quantity := 10, unit := "m" },
       { series_number := 2, quantity := 10, unit := "m" },
       { series_number := 3, quantity := 10, unit := "m" },
       { series_number := 4, quantity := 10, unit := "m" },
       { series_number := 5, quantity := 10, unit := "m" }] ∧
    (List.Sorted seriesDetailLe (seriesBreakdown cartItem50 [1, 2, 3, 4, 5]) ∧
      (∀ (s : Int) (q : ℚ) (u : String),
        ({ series_number := s, quantity := q, unit := u } : SeriesDetail)
            ∈ seriesBreakdown cartItem50 [1, 2, 3, 4, 5] ↔
          (s ∈ ([1, 2, 3, 4, 5] : List Int) ∧
            q = cartItem50.quantity / (([1, 2, 3, 4, 5] : List Int).length : ℚ) *
              ((([1, 2, 3, 4, 5] : List Int).count s : ℚ)) ∧
            u = cartItem50.unit)) ∧
      (∀ product : Product, product.is_series = true →
        listTruthy cartItem50.selected_series = true →
        (orderItemDetail product cartItem50).series_details =
          some (seriesBreakdown cartItem50 (cartItem50.selected_series.getD [])))) :=
  ⟨by
    norm_num [seriesBreakdown, seriesCounts, uniqKeys, uniqKeysAux, cartItem50,
      List.insertionSort, List.orderedInsert, seriesDetailLe, List.count, List.countP,
      List.countP.go]
    decide,
    series_breakdown_sorted_weighted cartItem50 [1, 2, 3, 4, 5] (by decide)⟩

/-- A reserve-time piece sum succeeds exactly over positive measurements, and then
equals the plain sum of the roll's piece measurements. -/
theorem checkedPiecesSum_ok (n : Nat) (ps : List RollPieceDetail) (s : ℚ)
    (h : checkedPiecesSum n ps = .ok s) :
    (∀ pc ∈ ps, 0 < pc.measurement) ∧
    s = (ps.map (fun pc => pc.measurement)).sum := by
  induction ps generalizing s with
  | nil =>
    simp only [checkedPiecesSum, Except.ok.injEq] at h
    simp [← h]
  | cons p ps ih =>
    by_cases hp : p.measurement ≤ 0
    · simp [checkedPiecesSum, hp] at h
    · simp only [checkedPiecesSum, if_neg hp] at h
      cases hr : checkedPiecesSum n ps with
      | error e => rw [hr] at h; cases h
      | ok s' =>
        rw [hr] at h
        simp only [Except.ok.injEq] at h
        rcases ih s' hr with ⟨h1, h2⟩
        refine ⟨?_, ?_⟩
        · intro pc hpc
          rcases List.mem_cons.mp hpc with rfl | hpc
          · exact lt_of_not_le hp
          · exact h1 pc hpc
        · rw [← h, h2]; simp

/-- A reserve-time rolls sum succeeds exactly over all-positive measurements, and
then equals the total of all piece measurements. -/
theorem checkedRollsSum_ok (rolls : List DetailedRollInfo) (s : ℚ)
    (h : checkedRollsSum rolls = .ok s) :
    (∀ r ∈ rolls, ∀ pc ∈ r.pieces, 0 < pc.measurement) ∧
    s = detailedRollsTotal rolls := by
  induction rolls generalizing s with
  | nil =>
    simp only [checkedRollsSum, Except.ok.injEq] at h
    simp [← h, detailedRollsTotal]
  | cons r rs ih =>
    cases hp : checkedPiecesSum r.roll_number r.pieces with
    | error e => simp [checkedRollsSum, hp] at h
    | ok a =>
      cases hrs : checkedRollsSum rs with
      | error e => simp [checkedRollsSum, hp, hrs] at h
      | ok b =>
        simp only [checkedRollsSum, hp, hrs, Except.ok.injEq] at h
        rcases checkedPiecesSum_ok r.roll_number r.pieces a hp with ⟨h1, h2⟩
        rcases ih b hrs with ⟨h3, h4⟩
        refine ⟨?_, ?_⟩
        · intro r' hr' pc hpc
          rcases List.mem_cons.mp hr' with rfl | hr'
          · exact h1 pc hpc
          · exact h3 r' hr' pc hpc
        · rw [← h, h2, h4]; simp [detailedRollsTotal]


/-- C3 as amended: effective quantity is resolved in priority order at creation
(detailed_rolls present and non-empty → sum of all piece measurements; else
rolls_count × pieces_per_roll with pieces_per_roll required; else the raw
quantity), and the resolved quantity must be positive or the item is rejected
with the 400 non-positive-quantity error — but individual piece measurements are
NOT validated at creation (only their sum is); the per-piece positivity check
exists only in the reserve-time edit path, whose success implies every provided
piece measurement is positive and the item quantity is their total. -/
theorem effective_quantity_resolution :
    (∀ item : InvoiceItemCreate, listTruthy item.detailed_rolls = true →
      computeEffectiveQuantity item =
        .ok (detailedRollsTotal (item.detailed_rolls.getD []))) ∧
    (∀ (item : InvoiceItemCreate) (rc : ℚ), listTruthy item.detailed_rolls = false →
      item.rolls_count = some rc → item.pieces_per_roll = none →
      computeEffectiveQuantity item = .error .piecesPerRollRequired) ∧
    (∀ (item : InvoiceItemCreate) (rc ppr : ℚ), listTruthy item.detailed_rolls = false →
      item.rolls_count = some rc → item.pieces_per_roll = some ppr →
      computeEffectiveQuantity item = .ok (rc * ppr)) ∧
    (∀ item : InvoiceItemCreate, listTruthy item.detailed_rolls = false →
      item.rolls_count = none →
      computeEffectiveQuantity item = .ok item.quantity) ∧
    (∀ (db : Db) (item : InvoiceItemCreate) (p : Product) (q : ℚ),
      findProduct db item.product_id = some p →
      computeEffectiveQuantity item = .ok q → q ≤ 0 →
      validateCreateItem db item = .error (.nonPositiveQuantity p.name) ∧
      (ApiError.nonPositiveQuantity p.name).statusCode = 400) ∧
    (∀ (db : Db) (item : InvoiceItemCreate) (q : ℚ),
      validateCreateItem db item = .ok q → 0 < q) ∧
    (∀ (inv_item : InvoiceItem) (edit : InvoiceItemReserveEdit)
        (rolls : List DetailedRollInfo) (it1 : InvoiceItem),
      edit.detailed_rolls = some rolls → rolls ≠ [] →
      applyReserveEdit inv_item edit = .ok it1 →
      (∀ r ∈ rolls, ∀ pc ∈ r.pieces, 0 < pc.measurement) ∧
      it1.quantity = detailedRollsTotal rolls) := by
  refine ⟨?_, ?_, ?_, ?_, ?_, ?_, ?_⟩
  · intro item h
    simp [computeEffectiveQuantity, h]
  · intro item rc h hrc hppr
    simp [computeEffectiveQuantity, h, hrc, hppr]
  · intro item rc ppr h hrc hppr
    simp [computeEffectiveQuantity, h, hrc, hppr]
  · intro item h hrc
    simp [computeEffectiveQuantity, h, hrc]
  · intro db item p q hf hc hq
    rw [validateCreateItem]
    simp [hf, hc, hq, ApiError.statusCode]
  · intro db item q h
    rw [validateCreateItem] at h
    cases hf : findProduct db item.product_id with
    | none => simp [hf] at h
    | some p =>
      cases hc : computeEffectiveQuantity item with
      | error e => simp [hf, hc] at h
      | ok q' =>
        simp only [hf, hc] at h
        by_cases hq : q' ≤ 0
        · rw [if_pos hq] at h; cases h
        · rw [if_neg hq] at h
          by_cases ha : ¬ p.is_available = true
          · rw [if_pos ha] at h; cases h
          · rw [if_neg ha] at h
            simp only [Except.ok.injEq] at h
            rw [← h]
            exact lt_of_not_le hq
  · intro inv_item edit rolls it1 hrolls hne h
    have hemp : rolls.isEmpty = false := by
      cases rolls with
      | nil => exact absurd rfl hne
      | cons r rs => rfl
    rw [applyReserveEdit] at h
    simp only [hrolls, hemp, Bool.false_eq_true, if_false] at h
    cases hcs : checkedRollsSum rolls with
    | error e => simp [hcs] at h
    | ok total =>
      rcases checkedRollsSum_ok rolls total hcs with ⟨h1, h2⟩
      refine ⟨h1, ?_⟩
      rcases hpz : edit.price with _ | pz <;> rcases hu : edit.unit with _ | u <;>
        simp only [hcs, hpz, hu] at h
      · simp only [Except.ok.injEq] at h
        rw [← h]; simpa using h2
      · simp only [Except.ok.injEq] at h
        rw [← h]; simpa using h2
      · by_cases hneg : pz < 0
        · rw [if_pos hneg] at h; cases h
        · rw [if_neg hneg] at h
          simp only [Except.ok.injEq] at h
          rw [← h]; simpa using h2
      · by_cases hneg : pz < 0
        · rw [if_pos hneg] at h; cases h
        · rw [if_neg hneg] at h
          simp only [Except.ok.injEq] at h
          rw [← h]; simpa using h2

/-- C3 counterexample: at creation a detailed-rolls item containing a non-positive
piece measurement (-1) is not rejected: its effective quantity is the raw sum 4
and the item passes full creation validation, contradicting the claim that every
individual piece measurement must be positive or the whole item is rejected. -/
theorem creation_accepts_negative_piece :
    negPieceItem.detailed_rolls =
      some [{ roll_number := 1
              pieces := [{ piece_number := 1, measurement := -1 },
                         { piece_number := 2, measurement := 5 }] }] ∧
    ((-1 : ℚ) ≤ 0) ∧
    computeEffectiveQuantity negPieceItem = .ok 4 ∧
    validateCreateItem minDb negPieceItem = .ok 4 :=
  ⟨rfl, by decide,
    by norm_num [computeEffectiveQuantity, negPieceItem, listTruthy, detailedRollsTotal],
    by norm_num [validateCreateItem, computeEffectiveQuantity, negPieceItem, listTruthy,
      detailedRollsTotal, findProduct, minDb, fabricProduct, List.find?]⟩

/-- Witness for C3's amended statement, instantiating every clause concretely. -/
theorem effective_quantity_resolution_witness :
    computeEffectiveQuantity negPieceItem =
      .ok (detailedRollsTotal (negPieceItem.detailed_rolls.getD [])) ∧
    computeEffectiveQuantity
      { product_id := 1, quantity := 1, unit := "m", price := 10, rolls_count := some 3 } =
      .error .piecesPerRollRequired ∧
    computeEffectiveQuantity
      { product_id := 1, quantity := 1, unit := "m", price := 10, rolls_count := some 3,
        pieces_per_roll := some 50 } = .ok (3 * 50) ∧
    computeEffectiveQuantity
      { product_id := 1, quantity := 5, unit := "m", price := 10 } =
      .ok ({ product_id := 1, quantity := 5, unit := "m", price := 10 :
              InvoiceItemCreate }).quantity ∧
    (validateCreateItem minDb
        { product_id := 1, quantity := 0, unit := "m", price := 10 } =
      .error (.nonPositiveQuantity "linen") ∧
      (ApiError.nonPositiveQuantity "linen").statusCode = 400) ∧
    (0 : ℚ) < 5 ∧
    ((∀ r ∈ posRolls, ∀ pc ∈ r.pieces, 0 < pc.measurement) ∧
      item5Rolled.quantity = detailedRollsTotal posRolls) :=
  ⟨effective_quantity_resolution.1 negPieceItem (by decide),
    effective_quantity_resolution.2.1 _ 3 (by decide) rfl rfl,
    effective_quantity_resolution.2.2.1 _ 3 50 (by decide) rfl rfl,
    effective_quantity_resolution.2.2.2.1 _ (by decide) rfl,
    effective_quantity_resolution.2.2.2.2.1 minDb _ fabricProduct 0 (by decide) (by decide)
      (by decide),
    effective_quantity_resolution.2.2.2.2.2.1 minDb
      { product_id := 1, quantity := 5, unit := "m", price := 10 } 5 (by decide),
    effective_quantity_resolution.2.2.2.2.2.2 item5 posRollsEdit posRolls item5Rolled
      rfl (by decide)
      (by norm_num [applyReserveEdit, posRollsEdit, posRolls, item5Rolled, item5,
        checkedRollsSum, checkedPiecesSum, detailedRollsTotal])⟩

/-- C7: an InvoiceItem's total_price is quantity × price, and right after each item
mutation — creation with effective quantities, or a reserve-time edit batch — the
returned invoice's subtotal and total both equal the sum of quantity × price over
its current items, with no tax or discount term. -/
theorem totals_follow_items :
    (∀ it : InvoiceItem, it.total_price = it.quantity * it.price) ∧
    (∀ (db : Db) (u : User) (gy : Nat) (invoice_in : InvoiceCreate) (res : Invoice),
      (create_invoice db u gy invoice_in).2 = .ok res →
      res.subtotal = (res.items.map InvoiceItem.total_price).sum ∧
      res.total = (res.items.map InvoiceItem.total_price).sum) ∧
    (∀ (db : Db) (u : User) (iid : Nat) (ru : InvoiceReserveUpdate) (res : Invoice),
      ru.items ≠ [] →
      (reserve_invoice_stock db u iid (some ru)).2 = .ok res →
      res.subtotal = (res.items.map InvoiceItem.total_price).sum ∧
      res.total = (res.items.map InvoiceItem.total_price).sum) := by
  refine ⟨fun it => rfl, ?_, ?_⟩
  · intro db u gy invoice_in res h
    rw [create_invoice] at h
    cases hcu : findCustomer db invoice_in.customer_id with
    | none => simp [hcu] at h
    | some cu =>
      cases hit : validateCreateItems db invoice_in.items with
      | error e => simp [hcu, hit] at h
      | ok qs =>
        simp only [hcu, hit] at h
        cases hvc :
          (if invoice_in.payment_type = PaymentType.CHECK ∨
              invoice_in.payment_type = PaymentType.MIXED then
            validateInvoiceCheck db invoice_in
          else .ok ()) with
        | error e => rw [hvc] at h; simp at h
        | ok unitv =>
          rw [hvc] at h
          simp only [Except.ok.injEq] at h
          subst h
          have htp : InvoiceItem.total_price = fun i : InvoiceItem => i.quantity * i.price :=
            rfl
          refine ⟨?_, ?_⟩ <;>
            · simp only [htp, List.map_map]
              rfl
  · intro db u iid ru res hne h
    rw [reserve_invoice_stock] at h
    cases hf : findInvoice db iid with
    | none => simp [hf] at h
    | some invoice =>
      simp only [hf] at h
      by_cases hst : invoice.status ≠ InvoiceStatus.WAREHOUSE_PENDING ∧
          invoice.status ≠ InvoiceStatus.ACCOUNTANT_PENDING
      · rw [if_pos hst] at h; simp at h
      · rw [if_neg hst] at h
        have hemp : ru.items.isEmpty = false := by
          cases hits : ru.items with
          | nil => exact absurd hits hne
          | cons a l => rfl
        simp only [hemp, Bool.false_eq_true, if_false] at h
        cases hed : applyReserveEdits invoice.items ru.items with
        | error e => simp [hed] at h
        | ok edited =>
          simp only [hed] at h
          cases hav : checkItemsAvailable db edited with
          | error e => simp [hav] at h
          | ok unitv =>
            simp only [hav] at h
            simp only [Except.ok.injEq] at h
            subst h
            have htp : InvoiceItem.total_price = fun i : InvoiceItem => i.quantity * i.price :=
              rfl
            constructor <;> simp [htp]

/-- Allocation on an empty store in Gregorian 2025: sequence 1 of Persian 1404. -/
theorem allocate_empty_2025 : allocateInvoiceNumber 2025 [] = (1, mkInvoiceNumber 1404 1) := by
  decide

/-- Witness for C7 at a concrete creation and a concrete reserve-time edit. -/
theorem totals_follow_items_witness :
    item5.total_price = item5.quantity * item5.price ∧
    ((create_invoice minDb adminUser 2025 invIn1).2 = .ok minCreatedInvoice ∧
      minCreatedInvoice.subtotal =
        (minCreatedInvoice.items.map InvoiceItem.total_price).sum ∧
      minCreatedInvoice.total =
        (minCreatedInvoice.items.map InvoiceItem.total_price).sum) ∧
    ((reserve_invoice_stock baseDb adminUser 1 (some editQty7)).2 = .ok reservedInvoice ∧
      reservedInvoice.subtotal = (reservedInvoice.items.map InvoiceItem.total_price).sum ∧
      reservedInvoice.total = (reservedInvoice.items.map InvoiceItem.total_price).sum) :=
  have hcreate : (create_invoice minDb adminUser 2025 invIn1).2 = .ok minCreatedInvoice := by
    norm_num [create_invoice, findCustomer, minDb, validateCreateItems, validateCreateItem,
      findProduct, fabricProduct, computeEffectiveQuantity, listTruthy, natTruthy,
      allocate_empty_2025, nextInvoiceId, invIn1, minCreatedInvoice, adminUser, List.find?]
    decide
  have hreserve :
      (reserve_invoice_stock baseDb adminUser 1 (some editQty7)).2 = .ok reservedInvoice := by
    norm_num [reserve_invoice_stock, findInvoice, baseDb, wpInvoice, deliveredInvoice, item5,
      editQty7, applyReserveEdits, applyReserveEdit, checkItemsAvailable, findProduct,
      fabricProduct, reservedInvoice, List.find?, setInvoice]
  ⟨totals_follow_items.1 item5,
    ⟨hcreate, totals_follow_items.2.1 minDb adminUser 2025 invIn1 minCreatedInvoice hcreate⟩,
    ⟨hreserve, totals_follow_items.2.2 baseDb adminUser 1 editQty7 reservedInvoice
      (by decide) hreserve⟩⟩

/-- Digit characters compare like their digits. -/
theorem digitChar_lt_iff {d e : Nat} (hd : d < 10) (he : e < 10) :
    digitChar d < digitChar e ↔ d < e := by
  interval_cases d <;> interval_cases e <;> decide

/-- The numeric value of a digit character. -/
theorem digitVal_digitChar {d : Nat} (hd : d < 10) : digitVal (digitChar d) = d := by
  interval_cases d <;> decide

/-- Lexicographic comparison ignores a common left part. -/
theorem lexLt_append_left (p a b : List Char) : lexLt (p ++ a) (p ++ b) = lexLt a b := by
  induction p with
  | nil => rfl
  | cons c cs ih =>
    show lexLt (c :: (cs ++ a)) (c :: (cs ++ b)) = lexLt a b
    rw [lexLt, if_neg (lt_irrefl c), if_neg (lt_irrefl c), ih]

/-- lexLt is irreflexive. -/
theorem lexLt_irrefl (s : List Char) : lexLt s s = false := by
  induction s with
  | nil => rfl
  | cons c cs ih => simp [lexLt, lt_irrefl, ih]

/-- lexLt is asymmetric. -/
theorem lexLt_asymm : ∀ s t : List Char, lexLt s t = true → lexLt t s = false := by
  intro s
  induction s with
  | nil =>
    intro t h
    cases t with
    | nil => simp [lexLt] at h
    | cons b bs => simp [lexLt]
  | cons a as ih =>
    intro t h
    cases t with
    | nil => simp [lexLt] at h
    | cons b bs =>
      simp only [lexLt] at h ⊢
      by_cases hab : a < b
      · rw [if_pos hab] at h
        rw [if_neg (lt_asymm hab), if_pos hab]
      · rw [if_neg hab] at h
        by_cases hba : b < a
        · rw [if_pos hba] at h; cases h
        · rw [if_neg hba] at h
          rw [if_neg hba, if_neg hab]
          exact ih bs h

/-- Strict comparison of %03d-formatted sequence numbers up to 999. -/
theorem lexLt_fmt3 {i j : Nat} (hij : i < j) (hj : j ≤ 999) :
    lexLt (fmt3 i) (fmt3 j) = true := by
  have hi' : i < 1000 := by omega
  have hj' : j < 1000 := by omega
  rw [fmt3, fmt3, if_pos hi', if_pos hj']
  rcases Nat.lt_trichotomy (i / 100) (j / 100) with h1 | h1 | h1
  · simp [lexLt, (digitChar_lt_iff (by omega) (by omega)).mpr h1]
  · rw [h1]
    rcases Nat.lt_trichotomy (i / 10 % 10) (j / 10 % 10) with h2 | h2 | h2
    · simp [lexLt, lt_irrefl, (digitChar_lt_iff (by omega) (by omega)).mpr h2]
    · rw [h2]
      rcases Nat.lt_trichotomy (i % 10) (j % 10) with h3 | h3 | h3
      · simp [lexLt, lt_irrefl, (digitChar_lt_iff (by omega) (by omega)).mpr h3]
      · omega
      · omega
    · omega
  · omega

/-- Strict comparison of whole invoice numbers of one year, by sequence. -/
theorem lexLt_mkInvoiceNumber (y : Nat) {i j : Nat} (hij : i < j) (hj : j ≤ 999) :
    lexLt (mkInvoiceNumber y i) (mkInvoiceNumber y j) = true := by
  rw [mkInvoiceNumber, mkInvoiceNumber, lexLt_append_left]
  exact lexLt_fmt3 hij hj

/-- A stem matches itself extended by anything (the LIKE 'stem%' filter). -/
theorem startsWithChars_append (p s : List Char) : startsWithChars p (p ++ s) = true := by
  induction p with
  | nil => rfl
  | cons c cs ih => simp [startsWithChars, ih]

/-- Parsing one appended digit. -/
theorem natOfChars_snoc (xs : List Char) (c : Char) :
    natOfChars (xs ++ [c]) = natOfChars xs * 10 + digitVal c := by
  simp [natOfChars, List.foldl_append]

/-- The decimal renderer round-trips through the parser. -/
theorem natOfChars_natCharsAux : ∀ (fuel n : Nat), n < fuel →
    natOfChars (natCharsAux fuel n) = n := by
  intro fuel
  induction fuel with
  | zero => intro n h; omega
  | succ f ih =>
    intro n h
    by_cases h10 : n < 10
    · simp [natCharsAux, if_pos h10, natOfChars, digitVal_digitChar h10]
    · rw [natCharsAux]
      rw [if_neg h10, natOfChars_snoc, ih (n / 10) (by omega),
        digitVal_digitChar (by omega)]
      omega

/-- natChars round-trips. -/
theorem natOfChars_natChars (n : Nat) : natOfChars (natChars n) = n :=
  natOfChars_natCharsAux (n + 1) n (by omega)

/-- fmt3 round-trips. -/
theorem natOfChars_fmt3 (n : Nat) : natOfChars (fmt3 n) = n := by
  by_cases h : n < 1000
  · rw [fmt3, if_pos h]
    have : natOfChars [digitChar (n / 100), digitChar (n / 10 % 10), digitChar (n % 10)] =
        ((0 * 10 + digitVal (digitChar (n / 100))) * 10 +
          digitVal (digitChar (n / 10 % 10))) * 10 + digitVal (digitChar (n % 10)) := rfl
    rw [this, digitVal_digitChar (by omega), digitVal_digitChar (by omega),
      digitVal_digitChar (by omega)]
    omega
  · rw [fmt3, if_neg h]
    exact natOfChars_natChars n

/-- Folding the binary lex max over a list lands on an element that dominates
everything, when one exists. -/
theorem foldl_lexMax_eq (l : List (List Char)) :
    ∀ a m : List Char,
    (∀ x ∈ l, x = m ∨ lexLt x m = true) →
    (a = m ∨ lexLt a m = true) →
    (m = a ∨ m ∈ l) →
    l.foldl (fun acc t => if lexLt acc t then t else acc) a = m := by
  induction l with
  | nil =>
    intro a m _ _ hm
    rcases hm with rfl | h
    · rfl
    · cases h
  | cons x xs ih =>
    intro a m hl ha hm
    simp only [List.foldl_cons]
    apply ih
    · intro y hy
      exact hl y (List.mem_cons_of_mem _ hy)
    · by_cases hax : lexLt a x = true
      · rw [if_pos hax]
        exact hl x (List.mem_cons_self x xs)
      · rw [if_neg hax]
        exact ha
    · by_cases hax : lexLt a x = true
      · rw [if_pos hax]
        rcases hm with rfl | hm
        · rcases hl x (List.mem_cons_self x xs) with h | h
          · exact Or.inl h.symm
          · rw [lexLt_asymm _ _ h] at hax
            cases hax
        · rcases List.mem_cons.mp hm with rfl | hm
          · exact Or.inl rfl
          · exact Or.inr hm
      · rw [if_neg hax]
        rcases hm with rfl | hm
        · exact Or.inl rfl
        · rcases List.mem_cons.mp hm with rfl | hm
          · rcases ha with rfl | h
            · exact Or.inl rfl
            · exact absurd h hax
          · exact Or.inr hm

/-- The ORDER-BY-DESC scan over the numbers of sequences 1..n (n ≤ 999) finds
sequence n's number. -/
theorem lexMax_mkInvoiceNumber_range (y n : Nat) (h1 : 1 ≤ n) (h2 : n ≤ 999) :
    lexMax ((List.range n).map (fun i => mkInvoiceNumber y (i + 1))) =
      some (mkInvoiceNumber y n) := by
  obtain ⟨k, rfl⟩ : ∃ k, n = k + 1 := ⟨n - 1, by omega⟩
  rw [List.range_succ_eq_map]
  simp only [List.map_cons, List.map_map]
  rw [lexMax]
  congr 1
  apply foldl_lexMax_eq
  · intro x hx
    simp only [List.mem_map, Function.comp] at hx
    obtain ⟨i, hi, rfl⟩ := hx
    rw [List.mem_range] at hi
    by_cases he : i + 1 + 1 = k + 1
    · rw [he]
      exact Or.inl rfl
    · exact Or.inr (lexLt_mkInvoiceNumber y (by omega) h2)
  · by_cases hk : k = 0
    · subst hk
      exact Or.inl rfl
    · exact Or.inr (lexLt_mkInvoiceNumber y (by omega) h2)
  · by_cases hk : k = 0
    · subst hk
      exact Or.inl rfl
    · refine Or.inr ?_
      simp only [List.mem_map, Function.comp, List.mem_range]
      exact ⟨k - 1, by omega, by congr 1; omega⟩

/-- No digit character is a dash. -/
theorem digitChar_ne_dash (k : Nat) : digitChar k ≠ '-' := by
  unfold digitChar
  repeat' split
  all_goals decide

/-- Rendered decimal numbers contain no dash. -/
theorem natCharsAux_nodash : ∀ (fuel n : Nat), ∀ c ∈ natCharsAux fuel n, c ≠ '-' := by
  intro fuel
  induction fuel with
  | zero => intro n c h; simp [natCharsAux] at h
  | succ f ih =>
    intro n c h
    rw [natCharsAux] at h
    by_cases h10 : n < 10
    · rw [if_pos h10] at h
      simp at h
      subst h
      exact digitChar_ne_dash n
    · rw [if_neg h10] at h
      rcases List.mem_append.mp h with h | h
      · exact ih _ c h
      · simp at h
        subst h
        exact digitChar_ne_dash _

/-- Formatted sequence numbers contain no dash. -/
theorem fmt3_nodash (n : Nat) : ∀ c ∈ fmt3 n, c ≠ '-' := by
  intro c hc
  rw [fmt3] at hc
  by_cases h : n < 1000
  · rw [if_pos h] at hc
    simp at hc
    rcases hc with rfl | rfl | rfl <;> exact digitChar_ne_dash _
  · rw [if_neg h] at hc
    exact natCharsAux_nodash _ _ c hc

/-- Splitting a dash-free string yields the string itself. -/
theorem splitDash_nodash : ∀ {xs : List Char}, (∀ c ∈ xs, c ≠ '-') →
    splitDash xs = [xs] := by
  intro xs
  induction xs with
  | nil => intro _; rfl
  | cons c cs ih =>
    intro h
    rw [splitDash, if_neg (h c (List.mem_cons_self c cs)),
      ih (fun d hd => h d (List.mem_cons_of_mem _ hd))]

/-- A dash-free left part joins the head of the split of the rest. -/
theorem splitDash_append : ∀ {xs : List Char}, (∀ c ∈ xs, c ≠ '-') →
    ∀ (ys p : List Char) (ps : List (List Char)), splitDash ys = p :: ps →
    splitDash (xs ++ ys) = (xs ++ p) :: ps := by
  intro xs
  induction xs with
  | nil =>
    intro _ ys p ps hys
    simpa using hys
  | cons c cs ih =>
    intro h ys p ps hys
    rw [List.cons_append, splitDash, if_neg (h c (List.mem_cons_self c cs)),
      ih (fun d hd => h d (List.mem_cons_of_mem _ hd)) ys p ps hys]
    rfl

/-- The split of a full invoice number: prefix, year, sequence. -/
theorem splitDash_mkInvoiceNumber (y s : Nat) :
    splitDash (mkInvoiceNumber y s) = [['I', 'N', 'V'], natChars y, fmt3 s] := by
  have h2 : splitDash (natChars y ++ '-' :: fmt3 s) = (natChars y ++ []) :: [fmt3 s] := by
    apply splitDash_append (fun c hc => natCharsAux_nodash _ _ c hc)
    rw [splitDash, if_pos rfl, splitDash_nodash (fmt3_nodash s)]
  have hshape : mkInvoiceNumber y s =
      'I' :: 'N' :: 'V' :: '-' :: (natChars y ++ '-' :: fmt3 s) := by
    simp [mkInvoiceNumber, invoiceNumberStem]
  rw [hshape]
  rw [splitDash, if_neg (by decide)]
  rw [splitDash, if_neg (by decide)]
  rw [splitDash, if_neg (by decide)]
  rw [splitDash, if_pos rfl]
  rw [h2]
  simp

/-- The trailing-integer parse recovers the allocated sequence. -/
theorem trailingSeq_mkInvoiceNumber (y s : Nat) :
    trailingSeq (mkInvoiceNumber y s) = s := by
  rw [trailingSeq, splitDash_mkInvoiceNumber]
  show natOfChars (fmt3 s) = s
  exact natOfChars_fmt3 s

/-- C6 as amended: every created invoice receives INV-{persianYear}-{seq} with
persianYear = Gregorian year − 621; seq is one plus the trailing integer of the
LEXICOGRAPHICALLY greatest existing number for that year (1 when none exists),
which coincides with one plus the numeric maximum — giving unique, sequential,
yearly-resetting numbers under non-concurrent operation — as long as every
existing sequence for the year is at most 999 (three digits); past that the
string scan underestimates the maximum. -/
theorem invoice_number_allocation :
    (∀ gy n : Nat, 1 ≤ n → n ≤ 999 →
      allocateInvoiceNumber gy
          ((List.range n).map (fun i => mkInvoiceNumber (gy - 621) (i + 1))) =
        (n + 1, mkInvoiceNumber (gy - 621) (n + 1)) ∧
      mkInvoiceNumber (gy - 621) (n + 1) ∉
        (List.range n).map (fun i => mkInvoiceNumber (gy - 621) (i + 1))) ∧
    (∀ gy : Nat,
      allocateInvoiceNumber gy [] = (1, mkInvoiceNumber (gy - 621) 1)) ∧
    (∀ (db : Db) (u : User) (gy : Nat) (invoice_in : InvoiceCreate) (res : Invoice),
      (create_invoice db u gy invoice_in).2 = .ok res →
      res.invoice_number =
        (allocateInvoiceNumber gy (db.invoices.map (fun i => i.invoice_number))).2 ∧
      res.status = InvoiceStatus.WAREHOUSE_PENDING) := by
  refine ⟨?_, ?_, ?_⟩
  · intro gy n h1 h2
    constructor
    · have hfilter :
          ((List.range n).map (fun i => mkInvoiceNumber (gy - 621) (i + 1))).filter
            (fun s => startsWithChars (invoiceNumberStem (gy - 621)) s) =
          (List.range n).map (fun i => mkInvoiceNumber (gy - 621) (i + 1)) := by
        apply List.filter_eq_self.mpr
        intro x hx
        simp only [List.mem_map] at hx
        obtain ⟨i, _, rfl⟩ := hx
        exact startsWithChars_append _ _
      simp only [allocateInvoiceNumber]
      rw [hfilter, lexMax_mkInvoiceNumber_range (gy - 621) n h1 h2]
      show (trailingSeq (mkInvoiceNumber (gy - 621) n) + 1,
          invoiceNumberStem (gy - 621) ++
            fmt3 (trailingSeq (mkInvoiceNumber (gy - 621) n) + 1)) =
        (n + 1, mkInvoiceNumber (gy - 621) (n + 1))
      rw [trailingSeq_mkInvoiceNumber]
      rfl
    · intro hmem
      simp only [List.mem_map, List.mem_range] at hmem
      obtain ⟨i, hi, heq⟩ := hmem
      have := congrArg trailingSeq heq
      rw [trailingSeq_mkInvoiceNumber, trailingSeq_mkInvoiceNumber] at this
      omega
  · intro gy
    rfl
  · intro db u gy invoice_in res h
    rw [create_invoice] at h
    cases hcu : findCustomer db invoice_in.customer_id with
    | none => simp [hcu] at h
    | some cu =>
      cases hit : validateCreateItems db invoice_in.items with
      | error e => simp [hcu, hit] at h
      | ok qs =>
        simp only [hcu, hit] at h
        cases hvc :
          (if invoice_in.payment_type = PaymentType.CHECK ∨
              invoice_in.payment_type = PaymentType.MIXED then
            validateInvoiceCheck db invoice_in
          else .ok ()) with
        | error e => rw [hvc] at h; simp at h
        | ok unitv =>
          rw [hvc] at h
          simp only [Except.ok.injEq] at h
          subst h
          exact ⟨rfl, rfl⟩

/-- C6 counterexample: with sequences 999 and 1000 on record for Persian year 1404
(Gregorian 2025), the descending string scan finds "INV-1404-999", not the numeric
maximum 1000, so create_invoice computes sequence 1000 — not 1 + 1000 — and the
formatted number collides with the existing row. -/
theorem invoice_number_scan_miscounts_after_999 :
    trailingSeq (mkInvoiceNumber 1404 999) = 999 ∧
    trailingSeq (mkInvoiceNumber 1404 1000) = 1000 ∧
    allocateInvoiceNumber 2025 [mkInvoiceNumber 1404 999, mkInvoiceNumber 1404 1000] =
      (1000, mkInvoiceNumber 1404 1000) ∧
    mkInvoiceNumber 1404 1000 ∈
      [mkInvoiceNumber 1404 999, mkInvoiceNumber 1404 1000] ∧
    (1000 : Nat) ≠ 1000 + 1 :=
  ⟨by decide, by decide, by decide, by decide, by decide⟩

/-- Witness for C6's amended statement at year 2025 with three existing numbers. -/
theorem invoice_number_allocation_witness :
    (allocateInvoiceNumber 2025
        ((List.range 3).map (fun i => mkInvoiceNumber 1404 (i + 1))) =
      (4, mkInvoiceNumber 1404 4) ∧
      mkInvoiceNumber 1404 4 ∉
        (List.range 3).map (fun i => mkInvoiceNumber 1404 (i + 1))) ∧
    allocateInvoiceNumber 2025 [] = (1, mkInvoiceNumber 1404 1) ∧
    ((create_invoice minDb adminUser 2025 invIn1).2 = .ok minCreatedInvoice ∧
      minCreatedInvoice.invoice_number =
        (allocateInvoiceNumber 2025 (minDb.invoices.map (fun i => i.invoice_number))).2 ∧
      minCreatedInvoice.status = InvoiceStatus.WAREHOUSE_PENDING) :=
  have hcreate : (create_invoice minDb adminUser 2025 invIn1).2 = .ok minCreatedInvoice := by
    norm_num [create_invoice, findCustomer, minDb, validateCreateItems, validateCreateItem,
      findProduct, fabricProduct, computeEffectiveQuantity, listTruthy, natTruthy,
      allocate_empty_2025, nextInvoiceId, invIn1, minCreatedInvoice, adminUser, List.find?]
    decide
  ⟨invoice_number_allocation.1 2025 3 (by decide) (by decide),
    invoice_number_allocation.2.1 2025,
    hcreate, invoice_number_allocation.2.2 minDb adminUser 2025 invIn1 minCreatedInvoice
      hcreate⟩
